import Mathlib

/-!
Verification of the forecasting core of the `capstone_project_unfc` repository
(`src/backend/analytics/forecasting/*` and `src/backend/analytics/metrics.py`).

Shallow embedding conventions:
* Python/numpy floating point numbers are idealized as real numbers `ℝ`.
* Timestamps (pandas `DatetimeIndex` entries) are idealized as integers `ℤ`
  (e.g. days since an epoch); only their order and affine arithmetic matter.
* `round(x, 4)` (Python) / pandas `.round(4)` is idealized as rounding
  `x * 10^4` to the nearest integer and dividing back.  Python uses
  round-half-to-even on binary floats; the idealization uses Mathlib's
  `round` (half-up).  Both are monotone and agree off exact ties; every
  concrete value appearing in a theorem below is tie-free.
* Calls into external libraries (scipy's `norm.ppf`, the Prophet model, the
  Keras network, the XGBoost artifact, the Chronos-2 pipeline, sklearn
  scalers) are modelled as opaque function parameters: the embedding takes
  the library's input/output behaviour as an argument and the code around
  the call is translated faithfully.  In particular every strategy's
  `forecast` receives the external function `ppf` standing for scipy's
  `norm.ppf`; the code only ever evaluates it at `(1 + confidence_level)/2`,
  a point in `(1/2, 1)` where the true probit is strictly positive and,
  as the confidence level ranges over `(0, 1)`, takes every positive value.
-/

namespace Capstone

/-- Presentation rounding to 4 decimal places: Python `round(x, 4)`,
pandas `.round(4)` (see file header for the half-tie idealization). -/
noncomputable def round4 (x : ℝ) : ℝ := (round (x * 10000) : ℝ) / 10000

/-- `np.mean` / pandas mean over a list (sum divided by length; the empty
list yields `0/0 = 0` in the embedding where numpy yields NaN — every call
site below is guarded by a positive length). -/
noncomputable def lmean (xs : List ℝ) : ℝ := xs.sum / xs.length

/-- pandas `Series.std()` (ddof = 1), the sample variance under the square
root: `Σ (x - mean)² / (n - 1)`.  For `n ≤ 1` pandas yields NaN; the
embedding yields `0` (division by zero), and every consumer below has
`n ≥ 5`. -/
noncomputable def sampleVar (xs : List ℝ) : ℝ :=
  ((xs.map (fun x => (x - lmean xs) ^ 2)).sum) / ((xs.length : ℝ) - 1)

/-- pandas `Series.std()` (ddof = 1). -/
noncomputable def sampleStd (xs : List ℝ) : ℝ := Real.sqrt (sampleVar xs)

/-!  ## pandas `ewm(span=…).mean()` (adjust = True, the pandas default)

`base.py` line 162: `ewm_series = prices.ewm(span=self.span).mean()`.
With `α = 2 / (span + 1)` the adjusted EWM satisfies the recurrence
`num_t = x_t + (1-α)·num_{t-1}`, `den_t = 1 + (1-α)·den_{t-1}`,
`y_t = num_t / den_t`.  -/

noncomputable def ewmAux (a : ℝ) : List ℝ → ℝ × ℝ → List ℝ
  | [], _ => []
  | x :: xs, nd =>
      let num := (1 - a) * nd.1 + x
      let den := (1 - a) * nd.2 + 1
      num / den :: ewmAux a xs (num, den)

/-- `prices.ewm(span=span).mean()` with the pandas default `adjust=True`. -/
noncomputable def ewmMean (span : ℕ) (xs : List ℝ) : List ℝ :=
  ewmAux (2 / ((span : ℝ) + 1)) xs (0, 0)

/-!  ## Shared data shapes -/

/-- The dict returned by every `forecast` implementation (`base.py`
lines 205–211 and the analogous returns in the other strategies):
parallel lists `dates`, `point_forecast`, `lower_bound`, `upper_bound`
plus the scalar `confidence_level`. -/
structure ForecastResult where
  dates : List ℤ
  pointForecast : List ℝ
  lowerBound : List ℝ
  upperBound : List ℝ
  confidenceLevel : ℝ

/-- Python exceptions surfaced by the forecasting core. -/
inductive FErr
  | notFitted    -- ValueError("Call fit() before forecast()")
  | badInput     -- TypeError/ValueError raised by `_validate_prices`
  | indexError   -- IndexError (e.g. `point_forecast[0]` on an empty list)
  | runtimeError -- RuntimeError (unexpected Chronos output columns)
  deriving DecidableEq

/-- `BaseForecastor._validate_prices` (`base.py` lines 81–102): the type
and NaN checks have no counterpart over `ℝ`/`ℤ`; the length check is
`len(prices) ≥ min_samples`. -/
def validatePrices (prices : List (ℤ × ℝ)) (minSamples : ℕ) : Bool :=
  minSamples ≤ prices.length

/-- `int(np.median(diffs))` over the day gaps: numpy's median (mean of the
two middle elements for even length), truncated toward zero by `int()`. -/
def medianInt (l : List ℤ) : ℤ :=
  let s := l.mergeSort (· ≤ ·)
  let n := s.length
  if n % 2 = 1 then s.getD (n / 2) 0
  else Int.tdiv (s.getD (n / 2 - 1) 0 + s.getD (n / 2) 0) 2

/-- `BaseForecastor._infer_freq_days` (`base.py` lines 105–119):
median gap between consecutive timestamps, at least 1 day. -/
def inferFreqDays (index : List ℤ) : ℤ :=
  max (medianInt (index.zipWith (fun a b => b - a) index.tail)) 1

/-- `seq[-L:]` / pandas `.tail(L)`: the last `L` elements of a list
(the whole list when it is shorter than `L`). -/
def tailN {α : Type} (L : ℕ) (l : List α) : List α := l.drop (l.length - L)

/-!  ## SimpleForecaster (`base.py` lines 125–224) -/

/-- The instance attributes of a `SimpleForecaster` after construction
and (possibly) `fit`. -/
structure SimpleState where
  span : ℕ
  confidenceLevel : ℝ
  prices : Option (List (ℤ × ℝ))  -- self._prices (None before fit)
  ewmValue : ℝ                    -- self._ewm_value
  residualStd : ℝ                 -- self._residual_std
  freqDays : ℤ                    -- self._freq_days
  isFitted : Bool                 -- self._is_fitted

/-- The state produced by a successful `SimpleForecaster.fit`
(`base.py` lines 150–167). -/
noncomputable def simpleFitSt (span : ℕ) (conf : ℝ) (s : List (ℤ × ℝ)) :
    SimpleState :=
  let vals := s.map Prod.snd
  let ewm := ewmMean span vals
  { span := span
    confidenceLevel := conf
    prices := some s
    ewmValue := ewm.getLast?.getD 0
    residualStd := sampleStd (vals.zipWith (· - ·) ewm)
    freqDays := inferFreqDays (s.map Prod.fst)
    isFitted := true }

/-- `SimpleForecaster.fit` (`base.py` lines 150–167): validate
(min_samples = 5), then derive the EWM value and residual spread. -/
noncomputable def simpleFit (span : ℕ) (conf : ℝ) (s : List (ℤ × ℝ)) :
    Except FErr SimpleState :=
  if validatePrices s 5 then .ok (simpleFitSt span conf s) else .error .badInput

/-- The loop `for h in range(1, periods + 1)` of `SimpleForecaster.forecast`
(`base.py` lines 187–203): `z = norm.ppf((1 + confidence_level) / 2)` via
the external `ppf`, flat point forecast, `sqrt(h)`-widening margins. -/
noncomputable def simpleForecastCore (ppf : ℝ → ℝ) (st : SimpleState)
    (periods : ℕ) (lastDate : ℤ) : ForecastResult :=
  let z := ppf ((1 + st.confidenceLevel) / 2)
  { dates := (List.range periods).map (fun (i : ℕ) => lastDate + st.freqDays * ((i : ℤ) + 1))
    pointForecast := (List.range periods).map (fun _ => round4 st.ewmValue)
    lowerBound := (List.range periods).map (fun (i : ℕ) =>
      round4 (st.ewmValue - z * st.residualStd * Real.sqrt ((i : ℝ) + 1)))
    upperBound := (List.range periods).map (fun (i : ℕ) =>
      round4 (st.ewmValue + z * st.residualStd * Real.sqrt ((i : ℝ) + 1)))
    confidenceLevel := st.confidenceLevel }

/-- `SimpleForecaster.forecast` (`base.py` lines 171–211). -/
noncomputable def simpleForecast (ppf : ℝ → ℝ) (st : SimpleState)
    (periods : ℕ) : Except FErr ForecastResult :=
  match st.isFitted, st.prices with
  | true, some s =>
      .ok (simpleForecastCore ppf st periods ((s.map Prod.fst).getLast?.getD 0))
  | _, _ => .error .notFitted

/-!  ## LSTMForecastor (`lstm.py` lines 50–272)

The trained Keras network is opaque: it is a function from the input
window (the last `lookback_window` scaled values) to the next scaled
value.  `MinMaxScaler.inverse_transform` is the affine map
`x ↦ x * dataScale + dataMin` (sklearn substitutes 1 for a zero data
range, folded into `dataScale`). -/

/-- The instance attributes of an `LSTMForecastor` relevant to `forecast`. -/
structure LstmState where
  lookback : ℕ                   -- self.lookback_window
  confidenceLevel : ℝ
  model : Option (List ℝ → ℝ)    -- self.model (trained network, opaque)
  scaledPrices : List ℝ          -- self._scaled_prices
  dataMin : ℝ                    -- scaler data_min_
  dataScale : ℝ                  -- scaler data range (zero range ↦ 1)
  pricesDates : List ℤ           -- self._prices.index
  valResidualStd : ℝ             -- self._val_residual_std
  freqDays : ℤ                   -- self._freq_days
  isFitted : Bool                -- self._is_fitted

/-- The autoregressive loop of `LSTMForecastor.forecast` (`lstm.py`
lines 226–231): predict one scaled step from the trailing window, append
it, repeat. -/
noncomputable def lstmRaws (net : List ℝ → ℝ) (L : ℕ) :
    ℕ → List ℝ → List ℝ
  | 0, _ => []
  | n + 1, seq =>
      let pred := net (tailN L seq)
      pred :: lstmRaws net L n (seq ++ [pred])

/-- `LSTMForecastor.forecast` after the fitted-guard (`lstm.py`
lines 217–257): inverse-scale the raw predictions, then build dates and
residual-based intervals with the zero-clamped lower bound
`round(max(price - margin, 0.0), 4)`. -/
noncomputable def lstmForecastCore (ppf : ℝ → ℝ) (st : LstmState)
    (net : List ℝ → ℝ) (periods : ℕ) : ForecastResult :=
  let z := ppf ((1 + st.confidenceLevel) / 2)
  let points := (lstmRaws net st.lookback periods
      (tailN st.lookback st.scaledPrices)).map
    (fun r => r * st.dataScale + st.dataMin)
  let lastDate := st.pricesDates.getLast?.getD 0
  { dates := (List.range periods).map (fun (i : ℕ) => lastDate + st.freqDays * ((i : ℤ) + 1))
    pointForecast := points.map round4
    lowerBound := points.mapIdx (fun i p =>
      round4 (max (p - z * st.valResidualStd * Real.sqrt ((i : ℝ) + 1)) 0))
    upperBound := points.mapIdx (fun i p =>
      round4 (p + z * st.valResidualStd * Real.sqrt ((i : ℝ) + 1)))
    confidenceLevel := st.confidenceLevel }

/-- `LSTMForecastor.forecast` (`lstm.py` lines 198–257). -/
noncomputable def lstmForecast (ppf : ℝ → ℝ) (st : LstmState)
    (periods : ℕ) : Except FErr ForecastResult :=
  match st.isFitted, st.model with
  | true, some net => .ok (lstmForecastCore ppf st net periods)
  | _, _ => .error .notFitted

/-!  ## ProphetForecaster (`prophet.py` lines 25–155)

The fitted Prophet model is opaque: `predict` maps the requested number of
future periods to the prediction frame for history + future rows (the
Prophet contract is `len(history) + periods` rows). -/

/-- The columns of the Prophet prediction frame consumed by `forecast`. -/
structure ProphetPred where
  ds : List ℤ
  yhat : List ℝ
  yhatLower : List ℝ
  yhatUpper : List ℝ

/-- The fitted Prophet library model (opaque). -/
structure ProphetModel where
  predict : ℕ → ProphetPred

/-- The instance attributes of a `ProphetForecaster`. -/
structure ProphetState where
  confidenceLevel : ℝ
  model : Option ProphetModel    -- self._model
  pricesDates : List ℤ           -- self._prices.index
  freqDays : ℤ                   -- self._freq_days
  isFitted : Bool                -- self._is_fitted

/-- `ProphetForecaster.forecast` after the fitted-guard (`prophet.py`
lines 110–143): take the last `periods` prediction rows, force every
forecast date strictly after the last training date, round the point and
bound columns. -/
noncomputable def prophetForecastCore (st : ProphetState) (m : ProphetModel)
    (periods : ℕ) : ForecastResult :=
  let pred := m.predict periods
  let lastDate := st.pricesDates.getLast?.getD 0
  let rawDates := tailN periods pred.ds
  let dates0 := rawDates.mapIdx (fun i d =>
    if d ≤ lastDate then lastDate + st.freqDays * ((i : ℤ) + 1) else d)
  let dates := if dates0 = [] then
      (List.range periods).map (fun (i : ℕ) => lastDate + st.freqDays * ((i : ℤ) + 1))
    else dates0
  { dates := dates
    pointForecast := (tailN periods pred.yhat).map round4
    lowerBound := (tailN periods pred.yhatLower).map round4
    upperBound := (tailN periods pred.yhatUpper).map round4
    confidenceLevel := st.confidenceLevel }

/-- `ProphetForecaster.forecast` (`prophet.py` lines 94–143). -/
noncomputable def prophetForecast (st : ProphetState) (periods : ℕ) :
    Except FErr ForecastResult :=
  match st.isFitted, st.model with
  | true, some m => .ok (prophetForecastCore st m periods)
  | _, _ => .error .notFitted

/-!  ## ProphetXGBForecaster (`prophet_xgb.py` lines 30–177)

The joblib artifact is opaque: the XGBoost model, the optional price
scaler and the residual scaler are functions.  An unavailable artifact
(missing file or missing joblib, `prophet_xgb.py` lines 116–126) is the
`none` case of the `Option XgbArtifact` argument. -/

/-- The loaded `prophet_xgb_artifact.joblib` contents. -/
structure XgbArtifact where
  residualLags : ℕ                          -- art["residual_lags"]
  priceLags : ℕ                             -- art["price_lags"]
  xgbPredict : List ℝ → List ℝ → ℝ → ℝ
    -- xgb_model.predict(X)[0] on the single feature row, given the
    -- residual-lag block, the (possibly scaled) price-lag block and
    -- vix_lag_1; the column selection/order X[feature_cols] is folded in.
  scalerPrice : Option (List ℝ → List ℝ)    -- scaler_price.transform
  invResidual : ℝ → ℝ                       -- scaler_residual.inverse_transform

/-- The instance attributes of a `ProphetXGBForecaster`. -/
structure PXgbState where
  confidenceLevel : ℝ
  path : ℤ                        -- str(self._path) (opaque token)
  prophet : Option ProphetState   -- self._prophet (fitted internally)
  prices : Option (List (ℤ × ℝ))  -- self._prices
  insampleYhat : List ℝ           -- self._insample_yhat
  isFitted : Bool                 -- self._is_fitted

/-- The XGB residual correction for step 1 (`prophet_xgb.py`
lines 128–156): lagged in-sample residuals, lagged prices (zero-filled
when the lag runs off the front), the zero VIX placeholder, optional
price scaling, XGB prediction, inverse residual scaling. -/
noncomputable def pxgbCorrection (a : XgbArtifact) (s : List (ℤ × ℝ))
    (insampleYhat : List ℝ) : ℝ :=
  let vals := s.map Prod.snd
  let residuals := vals.zipWith (· - ·) insampleYhat
  let n := s.length
  let resRow := (List.range a.residualLags).map (fun j =>
    if j + 1 ≤ n then residuals.getD (n - (j + 1)) 0 else 0)
  let priceRow := (List.range a.priceLags).map (fun j =>
    if j + 1 ≤ n then vals.getD (n - (j + 1)) 0 else 0)
  let priceFeat := match a.scalerPrice with
    | some f => f priceRow
    | none => priceRow
  a.invResidual (a.xgbPredict resRow priceFeat 0)

/-- `ProphetXGBForecaster.forecast` (`prophet_xgb.py` lines 100–165):
full Prophet forecast, then — when the artifact is available — the XGB
residual correction applied to `point_forecast[0]` only; when it is not,
the uncorrected Prophet output is returned as-is. -/
noncomputable def pxgbForecast (art : Option XgbArtifact) (st : PXgbState)
    (periods : ℕ) : Except FErr ForecastResult :=
  match st.isFitted, st.prophet, st.prices with
  | true, some pst, some s =>
      (match prophetForecast pst periods with
       | .error e => .error e
       | .ok pr =>
           match art with
           | none =>
               .ok { dates := pr.dates
                     pointForecast := pr.pointForecast
                     lowerBound := pr.lowerBound
                     upperBound := pr.upperBound
                     confidenceLevel := st.confidenceLevel }
           | some a =>
               match pr.pointForecast with
               | [] => .error .indexError  -- point_forecast[0] on an empty list
               | p0 :: rest =>
                   .ok { dates := pr.dates
                         pointForecast :=
                           round4 (p0 + pxgbCorrection a s st.insampleYhat) :: rest
                         lowerBound := pr.lowerBound
                         upperBound := pr.upperBound
                         confidenceLevel := st.confidenceLevel })
  | _, _, _ => .error .notFitted

/-- The dict returned by `ProphetXGBForecaster.get_model_info`
(`prophet_xgb.py` lines 167–177) plus the base-class entries.  The
constant strings (`model_name = "ProphetXGBForecaster"`,
`version = "1.0"`, `display_name = "Prophet + XGBoost"`) carry no state
and are omitted; the variable entries are `confidence_level`,
`artifact_path` (the configured path string — present whether or not the
file exists) and `is_fitted`. -/
structure PXgbInfo where
  confidenceLevel : ℝ
  artifactPath : ℤ
  isFitted : Bool

/-- `ProphetXGBForecaster.get_model_info` (`prophet_xgb.py`
lines 167–177). -/
def pxgbGetModelInfo (st : PXgbState) : PXgbInfo :=
  { confidenceLevel := st.confidenceLevel
    artifactPath := st.path
    isFitted := st.isFitted }

/-- One observable interaction with a `ProphetXGBForecaster`: a
`forecast` call in a given artifact-availability environment followed by
`get_model_info`. -/
noncomputable def pxgbRun (art : Option XgbArtifact) (st : PXgbState)
    (periods : ℕ) : Except FErr ForecastResult × PXgbInfo :=
  (pxgbForecast art st periods, pxgbGetModelInfo st)

/-!  ## Chronos2Forecaster (`chronos2.py` lines 30–160)

`Chronos2Pipeline.predict_df` is opaque: it returns forecast rows
`(timestamp, median, low-quantile, high-quantile)` plus flags for which
quantile columns are actually present in the output frame. -/

/-- The Chronos-2 prediction frame consumed by `forecast`. -/
structure ChronosPred where
  rows : List (ℤ × ℝ × ℝ × ℝ)  -- (timestamp, median, low, high) per row
  hasPoint : Bool               -- a median/predictions column is present
  hasLow : Bool                 -- the low-quantile column is present
  hasHigh : Bool                -- the high-quantile column is present

/-- The cached Chronos-2 pipeline (opaque). -/
structure ChronosPipeline where
  predictDf : List (ℤ × ℝ) → ℕ → ChronosPred

/-- The instance attributes of a `Chronos2Forecaster`. -/
structure ChronosState where
  confidenceLevel : ℝ
  prices : Option (List (ℤ × ℝ))  -- self._prices
  isFitted : Bool                 -- self._is_fitted

/-- `Chronos2Forecaster.forecast` (`chronos2.py` lines 80–145): sort the
prediction rows by timestamp, use the median as the point forecast
(RuntimeError when no usable column exists), fall back to
`low = high = point` when either quantile column is missing, round. -/
noncomputable def chronosForecast (pipe : ChronosPipeline) (st : ChronosState)
    (periods : ℕ) : Except FErr ForecastResult :=
  match st.isFitted, st.prices with
  | true, some s =>
      let pred := pipe.predictDf s periods
      if pred.hasPoint then
        let sorted := pred.rows.mergeSort (fun a b => a.1 ≤ b.1)
        let point := sorted.map (fun r => r.2.1)
        let low := if pred.hasLow && pred.hasHigh then
            sorted.map (fun r => r.2.2.1) else point
        let high := if pred.hasLow && pred.hasHigh then
            sorted.map (fun r => r.2.2.2) else point
        .ok { dates := sorted.map (fun r => r.1)
              pointForecast := point.map round4
              lowerBound := low.map round4
              upperBound := high.map round4
              confidenceLevel := st.confidenceLevel }
      else .error .runtimeError
  | _, _ => .error .notFitted

/-!  ## metrics.py — error aggregation and the walk-forward evaluator -/

/-- The dict returned by `_mae_rmse_mape` (`metrics.py` lines 42–50). -/
structure MetricsOut where
  mae : ℝ
  rmse : ℝ
  mape : ℝ

open Classical in
/-- `_mae_rmse_mape` (`metrics.py` lines 42–50).  The MAPE line is
`np.mean(np.where(actual != 0, |（actual - predicted) / actual|, 0)) * 100`:
pairs with a zero actual contribute `0` to the sum but still count in the
denominator of `np.mean`. -/
noncomputable def maeRmseMape (actual predicted : List ℝ) : MetricsOut :=
  let diffs := actual.zipWith (· - ·) predicted
  let mae := lmean (diffs.map (fun d => |d|))
  let rmse := Real.sqrt (lmean (diffs.map (fun d => d ^ 2)))
  let mape := lmean ((actual.zip predicted).map (fun ap =>
    if ap.1 ≠ 0 then |(ap.1 - ap.2) / ap.1| else 0)) * 100
  { mae := round4 mae, rmse := round4 rmse, mape := round4 mape }

open Classical in
/-- The specification's reading of the MAPE ("MAPE excludes any pair where
the actual value is exactly zero … the mean … is taken over only the
nonzero-actual indices"): the mean of `|(a - p)/a|` over only the pairs
with `a ≠ 0`, scaled to percent and rounded like the implementation.
Stated for comparison with `maeRmseMape`. -/
noncomputable def mapeSpec (actual predicted : List ℝ) : ℝ :=
  let nz := (actual.zip predicted).filter (fun ap => decide (ap.1 ≠ 0))
  round4 (lmean (nz.map (fun ap => |(ap.1 - ap.2) / ap.1|)) * 100)

/-- The model-name tokens dispatched on by `metrics.py` (the
`MODELS_LITERAL` values plus `"lstm"`, which the per-step dispatch also
tests for, plus any other string, which falls into `else: continue`). -/
inductive ModelName
  | base | prophet | lstm | prophetXgb | other
  deriving DecidableEq

/-- Opaque behaviour of the library-backed strategies inside the
`try` blocks of `_run_walk_forward_one_step` and `_run_bounds_forecast`:
`none` means the construct/fit/forecast sequence raised (the caller
catches and skips). -/
structure ExtStep where
  prophetStep : List (ℤ × ℝ) → ℝ → Option ℝ
  prophetXgbStep : List (ℤ × ℝ) → ℝ → Option ℝ
  prophetBounds : List (ℤ × ℝ) → ℕ → ℝ → Option (List ℝ × List ℝ × List ℝ)
  prophetXgbBounds : List (ℤ × ℝ) → ℕ → ℝ → Option (List ℝ × List ℝ × List ℝ)

/-- The `model_name == "base"` step of `_run_walk_forward_one_step`
(`metrics.py` lines 81–101): a fresh `SimpleForecaster` with
`span = min(lookback_window, len(train) - 1)`, fit on the prefix,
one-step forecast, first point. -/
noncomputable def baseStep (ppf : ℝ → ℝ) (conf : ℝ) (lookback : ℕ)
    (train : List (ℤ × ℝ)) : Option ℝ :=
  match simpleFit (min lookback (train.length - 1)) conf train with
  | .error _ => none
  | .ok st =>
      match simpleForecast ppf st 1 with
      | .error _ => none
      | .ok r => r.pointForecast.head?

/-- The per-step model dispatch of `_run_walk_forward_one_step`
(`metrics.py` lines 81–104).  The `"lstm"` arm constructs
`LSTMForecastor(...)` — a name that `metrics.py` never imports (its
imports at lines 24–28 are only `ProphetForecaster`,
`ProphetXGBForecaster`, `SimpleForecaster`), so that arm raises
`NameError`, which the `except Exception` handler catches: the step is
skipped, i.e. `none`. -/
noncomputable def stepPredict (ext : ExtStep) (ppf : ℝ → ℝ) (conf : ℝ)
    (lookback : ℕ) (name : ModelName) (train : List (ℤ × ℝ)) : Option ℝ :=
  match name with
  | .base => baseStep ppf conf lookback train
  | .prophet => ext.prophetStep train conf
  | .lstm => none       -- NameError: LSTMForecastor is not defined
  | .prophetXgb => ext.prophetXgbStep train conf
  | .other => none      -- else: continue

/-- The `train_end` values attempted by the loop of
`_run_walk_forward_one_step` (`metrics.py` lines 73–76):
`train_end = n - last_n + k` for `k in range(last_n)`, skipping
(`continue`) any `train_end < lookback_window + 5`.  Computed in `ℤ` to
match Python's signed arithmetic. -/
def stepIndices (n lastN lookback : ℕ) : List ℤ :=
  ((List.range lastN).map (fun (k : ℕ) => (n : ℤ) - (lastN : ℤ) + (k : ℤ))).filter
    (fun t => (lookback : ℤ) + 5 ≤ t)

/-- `_run_walk_forward_one_step` (`metrics.py` lines 53–111): global
length guard, per-step train/test split with skipped failures, and the
`< 5` successful-steps cutoff. -/
noncomputable def runWalkForwardOneStep (ext : ExtStep) (ppf : ℝ → ℝ)
    (prices : List (ℤ × ℝ)) (name : ModelName) (lastN lookback : ℕ)
    (conf : ℝ) : Option MetricsOut :=
  let n := prices.length
  if n < lastN + (if lastN ≤ 52 then 52 else 32) then none
  else
    let recs := (stepIndices n lastN lookback).filterMap (fun t =>
      (stepPredict ext ppf conf lookback name (prices.take t.toNat)).map
        (fun pred => ((prices.getD t.toNat (0, 0)).2, pred)))
    if recs.length < 5 then none
    else some (maeRmseMape (recs.map Prod.fst) (recs.map Prod.snd))

/-- `_run_bounds_forecast` (`metrics.py` lines 114–150): one full-horizon
forecast per model; the dispatch knows only `"base"`, `"prophet"` and
`"prophet_xgb"` (anything else returns `None`); failures return `None`. -/
noncomputable def boundsForecast (ext : ExtStep) (ppf : ℝ → ℝ)
    (prices : List (ℤ × ℝ)) (name : ModelName) (periods lookback : ℕ)
    (conf : ℝ) : Option (List ℝ × List ℝ × List ℝ) :=
  match name with
  | .base =>
      (match simpleFit (min lookback (prices.length - 1)) conf prices with
       | .error _ => none
       | .ok st =>
           match simpleForecast ppf st periods with
           | .error _ => none
           | .ok r => some (r.lowerBound, r.pointForecast, r.upperBound))
  | .prophet => ext.prophetBounds prices periods conf
  | .prophetXgb => ext.prophetXgbBounds prices periods conf
  | _ => none

/-- The `interval` literal of `walk_forward_backtest_last_n_weeks`. -/
inductive Cadence
  | wk   -- "1wk"
  | mo   -- "1mo"
  deriving DecidableEq

/-- `MIN_TRAIN_WEEKLY = 52`, `MIN_TRAIN_MONTHLY = 24`
(`metrics.py` lines 36–37), selected at line 186. -/
def minTrain : Cadence → ℕ
  | .wk => 52
  | .mo => 24

/-- The dict returned by `walk_forward_backtest_last_n_weeks`
(`metrics.py` lines 188–193 and 226–231).  `shortfallError` models the
`"error"` key by its two interpolated numbers
(`"Need at least X points (have Y)."`); `lastNWeeks` models the
`"last_n_weeks"` key, present only on the success path. -/
structure BacktestOut where
  metrics : List (ModelName × MetricsOut)
  boundsHorizonWeeks : ℕ
  bounds : List (ModelName × (List ℝ × List ℝ × List ℝ))
  shortfallError : Option (ℕ × ℕ)
  lastNWeeks : Option ℕ

/-- `walk_forward_backtest_last_n_weeks` (`metrics.py` lines 153–231). -/
noncomputable def walkForwardBacktest (ext : ExtStep) (ppf : ℝ → ℝ)
    (prices : List (ℤ × ℝ)) (interval : Cadence) (lastNWeeks lookback : ℕ)
    (conf : ℝ) (models : Option (List ModelName))
    (boundsHorizonPeriods : Option ℕ) : BacktestOut :=
  let ms := models.getD [.base, .prophet]
  if prices.length < lastNWeeks + minTrain interval then
    { metrics := []
      boundsHorizonWeeks := min 12 lastNWeeks
      bounds := []
      shortfallError := some (lastNWeeks + minTrain interval, prices.length)
      lastNWeeks := none }
  else
    let metricsList := ms.filterMap (fun m =>
      (runWalkForwardOneStep ext ppf prices m lastNWeeks lookback conf).map
        (fun r => (m, r)))
    let bh := boundsHorizonPeriods.getD (if interval = .wk then 12 else 4)
    let boundsList := ms.filterMap (fun m =>
      (boundsForecast ext ppf prices m bh lookback conf).map (fun b => (m, b)))
    { metrics := metricsList
      boundsHorizonWeeks := bh
      bounds := boundsList
      shortfallError := none
      lastNWeeks := some lastNWeeks }

/-!  ## Concrete instances used in counterexamples and witnesses -/

/-- A `SimpleForecaster` as constructed by `__init__` (`base.py`
lines 138–146), before any `fit` (a `fit` that raised a validation error
leaves the instance in this state, since `_validate_prices` runs first). -/
def simpleInit (span : ℕ) (conf : ℝ) : SimpleState :=
  { span := span, confidenceLevel := conf, prices := none, ewmValue := 0
    residualStd := 0, freqDays := 7, isFitted := false }

/-- An `LSTMForecastor` as constructed by `__init__` (`lstm.py`
lines 66–97), before any `fit`. -/
def lstmInit (lookback : ℕ) (conf : ℝ) : LstmState :=
  { lookback := lookback, confidenceLevel := conf, model := none
    scaledPrices := [], dataMin := 0, dataScale := 1, pricesDates := []
    valResidualStd := 0, freqDays := 7, isFitted := false }

/-- A `ProphetForecaster` as constructed by `__init__` (`prophet.py`
lines 39–45), before any `fit`. -/
def prophetInit (conf : ℝ) : ProphetState :=
  { confidenceLevel := conf, model := none, pricesDates := []
    freqDays := 7, isFitted := false }

/-- A `ProphetXGBForecaster` as constructed by `__init__`
(`prophet_xgb.py` lines 43–54), before any `fit`. -/
def pxgbInit (conf : ℝ) (path : ℤ) : PXgbState :=
  { confidenceLevel := conf, path := path, prophet := none, prices := none
    insampleYhat := [], isFitted := false }

/-- A `Chronos2Forecaster` as constructed by `__init__` (`chronos2.py`
lines 39–46), before any `fit`. -/
def chronosInit (conf : ℝ) : ChronosState :=
  { confidenceLevel := conf, prices := none, isFitted := false }

/-- A stand-in for the external `norm.ppf((1 + confidence)/2)` call
returning exactly 2.  The true probit is continuous and strictly
increasing on `(1/2, 1)` with range `(0, ∞)`, so there is a confidence
level `c ∈ (0, 1)` at which scipy returns exactly 2; since `forecast`
evaluates the function at that single point only, a run with `ppfCE`
coincides with a genuine program run at confidence `c`. -/
noncomputable def ppfCE : ℝ → ℝ := fun _ => 2

/-- One possible behaviour of the opaque trained Keras network: an affine
response to the last entry of the input window.  (Keras networks are
unconstrained real-valued maps; poorly-trained ones routinely produce
scaled values outside `[0, 1]`, which the min-max inverse transform turns
into out-of-range — even negative — prices.) -/
noncomputable def netCE : List ℝ → ℝ := fun w => -2 * (w.getLast?.getD 0) + 20

/-- A fitted `LSTMForecastor` state: lookback 2, trailing scaled history
`[0, 0]`, identity scaler, positive validation residual std 5. -/
noncomputable def lstmStCE : LstmState :=
  { lookback := 2, confidenceLevel := 0.95, model := some netCE
    scaledPrices := [0, 0], dataMin := 0, dataScale := 1
    pricesDates := [0, 7], valResidualStd := 5, freqDays := 7
    isFitted := true }

/-- The forecast produced by `lstmStCE` over horizon 4: the raw
autoregressive predictions are `[20, -20, 60, -100]`. -/
noncomputable def lstmResCE : ForecastResult := lstmForecastCore ppfCE lstmStCE netCE 4

/-- A possible Prophet prediction frame: `len(history) = 3` plus the
requested future rows (the Prophet row-count contract), constant columns. -/
noncomputable def prophetPredCE (p : ℕ) : ProphetPred :=
  { ds := (List.range (3 + p)).map (fun (i : ℕ) => 7 * (i : ℤ))
    yhat := List.replicate (3 + p) 10
    yhatLower := List.replicate (3 + p) 8
    yhatUpper := List.replicate (3 + p) 12 }

/-- The fitted Prophet library model behind `prophetPredCE`. -/
noncomputable def prophetModelCE : ProphetModel := { predict := prophetPredCE }

/-- A fitted `ProphetForecaster` state over a 3-point weekly history. -/
noncomputable def prophetStCE : ProphetState :=
  { confidenceLevel := 0.95, model := some prophetModelCE
    pricesDates := [0, 7, 14], freqDays := 7, isFitted := true }

/-- The Prophet-only forecast of `prophetStCE` over horizon 2. -/
noncomputable def prophetResCE : ForecastResult :=
  prophetForecastCore prophetStCE prophetModelCE 2

/-- A loaded Prophet+XGB artifact with trivial opaque components. -/
noncomputable def artCE : XgbArtifact :=
  { residualLags := 2, priceLags := 2, xgbPredict := fun _ _ _ => 1
    scalerPrice := none, invResidual := fun x => x }

/-- A fitted `ProphetXGBForecaster` state composing `prophetStCE`. -/
noncomputable def pxgbStCE : PXgbState :=
  { confidenceLevel := 0.95, path := 0, prophet := some prophetStCE
    prices := some [(0, 10), (7, 11), (14, 12)]
    insampleYhat := [10, 10, 10], isFitted := true }

/-- A fitted `LSTMForecastor` state with a constant-zero network and zero
validation residual std (used as a witness instance). -/
noncomputable def lstmStW : LstmState :=
  { lookback := 1, confidenceLevel := 0.95, model := some (fun _ => 0)
    scaledPrices := [0], dataMin := 0, dataScale := 1, pricesDates := [0]
    valResidualStd := 0, freqDays := 7, isFitted := true }

/-- A Chronos-2 pipeline returning `p` ordered rows `(i, 5, 4, 6)` with
all quantile columns present. -/
noncomputable def chronosPipeCE : ChronosPipeline :=
  { predictDf := fun _ p =>
      { rows := (List.range p).map (fun (i : ℕ) => ((i : ℤ), 5, 4, 6))
        hasPoint := true, hasLow := true, hasHigh := true } }

/-- A fitted `Chronos2Forecaster` state. -/
noncomputable def chronosStCE : ChronosState :=
  { confidenceLevel := 0.95, prices := some [(0, 1)], isFitted := true }

/-- A fitted `SimpleForecaster` state with strictly positive residual
std (used as a witness instance). -/
noncomputable def simpleStC6W : SimpleState :=
  { span := 20, confidenceLevel := 0.95, prices := some [(0, 1)]
    ewmValue := 10, residualStd := 1, freqDays := 7, isFitted := true }

/-- A constant witness series of 5 weekly points. -/
def seriesW : List (ℤ × ℝ) := [(0, 1), (7, 1), (14, 1), (21, 1), (28, 1)]

/-- The Baseline-Smoothing forecast over `seriesW` (horizon 4). -/
noncomputable def simpleResW : ForecastResult :=
  simpleForecastCore ppfCE (simpleFitSt 20 (1 / 2) seriesW) 4
    ((seriesW.map Prod.fst).getLast?.getD 0)

/-- The LSTM forecast of the witness state `lstmStW` (horizon 4). -/
noncomputable def lstmResW : ForecastResult :=
  lstmForecastCore ppfCE lstmStW (fun _ => 0) 4

/-- The hybrid forecast of `pxgbStCE` with artifact `artCE` (horizon 2). -/
noncomputable def pxgbResW : ForecastResult :=
  { dates := prophetResCE.dates
    pointForecast := round4 (round4 10 +
      pxgbCorrection artCE [(0, 10), (7, 11), (14, 12)]
        pxgbStCE.insampleYhat) :: [round4 10]
    lowerBound := prophetResCE.lowerBound
    upperBound := prophetResCE.upperBound
    confidenceLevel := pxgbStCE.confidenceLevel }

/-- The Chronos-2 forecast of `chronosStCE` via `chronosPipeCE`
(horizon 3). -/
noncomputable def chronosResW : ForecastResult :=
  { dates := ((chronosPipeCE.predictDf [(0, 1)] 3).rows.mergeSort
      (fun a b => a.1 ≤ b.1)).map (fun r => r.1)
    pointForecast := (((chronosPipeCE.predictDf [(0, 1)] 3).rows.mergeSort
      (fun a b => a.1 ≤ b.1)).map (fun r => r.2.1)).map round4
    lowerBound := (((chronosPipeCE.predictDf [(0, 1)] 3).rows.mergeSort
      (fun a b => a.1 ≤ b.1)).map (fun r => r.2.2.1)).map round4
    upperBound := (((chronosPipeCE.predictDf [(0, 1)] 3).rows.mergeSort
      (fun a b => a.1 ≤ b.1)).map (fun r => r.2.2.2)).map round4
    confidenceLevel := 0.95 }

/-- A 53-point witness series with strictly increasing integer dates. -/
def wfSeriesW : List (ℤ × ℝ) := (List.range 53).map (fun (i : ℕ) => ((i : ℤ), (0 : ℝ)))

/-- An external-strategy behaviour in which every library-backed step
raises (is skipped). -/
noncomputable def extW : ExtStep :=
  { prophetStep := fun _ _ => none
    prophetXgbStep := fun _ _ => none
    prophetBounds := fun _ _ _ => none
    prophetXgbBounds := fun _ _ _ => none }

/-!  ## Helper lemmas -/

theorem round4_mono {x y : ℝ} (h : x ≤ y) : round4 x ≤ round4 y := by
  unfold round4
  have h1 : round (x * 10000) ≤ round (y * 10000) := by
    rw [round_eq, round_eq]
    exact Int.floor_le_floor (by linarith)
  have hc : ((round (x * 10000) : ℤ) : ℝ) ≤ ((round (y * 10000) : ℤ) : ℝ) :=
    Int.cast_le.mpr h1
  linarith

theorem round4_ofInt (k : ℤ) : round4 (k : ℝ) = k := by
  unfold round4
  rw [show ((k : ℝ) * 10000) = (((k * 10000 : ℤ)) : ℝ) by push_cast; ring,
    round_intCast]
  push_cast
  ring

theorem round4_zero : round4 0 = 0 := by
  simpa using round4_ofInt 0

theorem round4_max (x y : ℝ) : round4 (max x y) = max (round4 x) (round4 y) := by
  rcases le_total x y with h | h
  · rw [max_eq_right h, max_eq_right (round4_mono h)]
  · rw [max_eq_left h, max_eq_left (round4_mono h)]

theorem sampleStd_nonneg (xs : List ℝ) : 0 ≤ sampleStd xs := Real.sqrt_nonneg _

theorem ewmAux_length (a : ℝ) (xs : List ℝ) (nd : ℝ × ℝ) :
    (ewmAux a xs nd).length = xs.length := by
  induction xs generalizing nd with
  | nil => rfl
  | cons x xs ih => simp [ewmAux, ih]

theorem ewmMean_length (span : ℕ) (xs : List ℝ) :
    (ewmMean span xs).length = xs.length := ewmAux_length _ _ _

theorem getD_map_range {α : Type} (f : ℕ → α) {H i : ℕ} (h : i < H) (d : α) :
    ((List.range H).map f).getD i d = f i := by
  rw [List.getD_eq_getElem?_getD, List.getElem?_map, List.getElem?_range h]
  rfl

theorem getD_map_round4 (l : List ℝ) (i : ℕ) :
    (l.map round4).getD i 0 = round4 (l.getD i 0) := by
  rw [List.getD_eq_getElem?_getD, List.getD_eq_getElem?_getD, List.getElem?_map]
  cases h : l[i]? with
  | none => simp [round4_zero]
  | some x => simp

theorem lstmRaws_length (net : List ℝ → ℝ) (L : ℕ) :
    ∀ (n : ℕ) (seq : List ℝ), (lstmRaws net L n seq).length = n := by
  intro n
  induction n with
  | zero => intro seq; rfl
  | succ n ih => intro seq; simp [lstmRaws, ih]

theorem sqrt_four : Real.sqrt 4 = 2 := by
  rw [show (4 : ℝ) = 2 ^ 2 by norm_num, Real.sqrt_sq (by norm_num)]

theorem tailN_length_of_le {α : Type} {n : ℕ} {l : List α}
    (h : n ≤ l.length) : (tailN n l).length = n := by
  simp only [tailN, List.length_drop]
  omega

theorem getD_ge {α : Type} (l : List α) {i : ℕ} (h : l.length ≤ i) (d : α) :
    l.getD i d = d := by
  rw [List.getD_eq_getElem?_getD, List.getElem?_eq_none h]
  rfl

theorem getD_map_lt {α β : Type} (l : List α) (f : α → β) {i : ℕ}
    (h : i < l.length) (d : α) (d' : β) :
    (l.map f).getD i d' = f (l.getD i d) := by
  have h' : i < (l.map f).length := by simpa using h
  rw [List.getD_eq_getElem _ _ h', List.getD_eq_getElem _ _ h,
    List.getElem_map]

theorem getD_mapIdx_lt {α β : Type} (l : List α) (f : ℕ → α → β) {i : ℕ}
    (h : i < l.length) (d : α) (d' : β) :
    (l.mapIdx f).getD i d' = f i (l.getD i d) := by
  have h' : i < (l.mapIdx f).length := by
    simpa [List.length_mapIdx] using h
  rw [List.getD_eq_getElem _ _ h', List.getD_eq_getElem _ _ h]
  simp [List.get_eq_getElem]

/-- The autoregressive loop of `lstmStCE`'s forecast: seeded with the
scaled window `[0, 0]`, the network `netCE` produces
`20, −20, 60, −100`. -/
theorem lstmRawsCE :
    lstmRaws netCE 2 4 (tailN 2 [(0 : ℝ), 0]) = [20, -20, 60, -100] := by
  simp only [lstmRaws, tailN, netCE]
  norm_num

theorem lstmPointsCE :
    (lstmRaws netCE 2 4 (tailN 2 [(0 : ℝ), 0])).map
      (fun r => r * (1 : ℝ) + 0) = [20, -20, 60, -100] := by
  rw [lstmRawsCE]; norm_num

theorem lstmResCE_upperBound :
    lstmResCE.upperBound = [round4 30, round4 (-20 + 10 * Real.sqrt 2),
      round4 (60 + 10 * Real.sqrt 3), round4 (-80)] := by
  show (lstmForecastCore ppfCE lstmStCE netCE 4).upperBound = _
  simp only [lstmForecastCore, lstmStCE, ppfCE, lstmPointsCE]
  simp only [List.mapIdx_cons, List.mapIdx_nil]
  norm_num [Real.sqrt_one, sqrt_four]

theorem lstmResCE_lowerBound :
    lstmResCE.lowerBound = [round4 10,
      round4 (max (-20 - 10 * Real.sqrt 2) 0),
      round4 (max (60 - 10 * Real.sqrt 3) 0), round4 0] := by
  show (lstmForecastCore ppfCE lstmStCE netCE 4).lowerBound = _
  simp only [lstmForecastCore, lstmStCE, ppfCE, lstmPointsCE]
  simp only [List.mapIdx_cons, List.mapIdx_nil]
  norm_num [Real.sqrt_one]
  rw [show ((-100 - 10 * Real.sqrt 4) ⊔ 0 : ℝ) = 0 from
    max_eq_right (by nlinarith [Real.sqrt_nonneg (4 : ℝ)])]

theorem lstmResCE_pointForecast :
    lstmResCE.pointForecast = [round4 20, round4 (-20), round4 60,
      round4 (-100)] := by
  show (lstmForecastCore ppfCE lstmStCE netCE 4).pointForecast = _
  simp only [lstmForecastCore, lstmStCE, lstmPointsCE]
  simp only [List.map_cons, List.map_nil]

/-- The masked sum `Σ (if a ≠ 0 then f (a, p) else 0)` equals the sum of
`f` over only the pairs with nonzero first component. -/
theorem sum_map_mask_eq_sum_filter (f : ℝ × ℝ → ℝ) (l : List (ℝ × ℝ)) :
    (l.map (fun ap => if ap.1 ≠ 0 then f ap else 0)).sum =
      ((l.filter (fun ap => decide (ap.1 ≠ 0))).map f).sum := by
  induction l with
  | nil => rfl
  | cons a l ih =>
      rw [List.map_cons, List.sum_cons, List.filter_cons]
      by_cases h : a.1 ≠ 0
      · rw [if_pos h, if_pos (decide_eq_true h), List.map_cons, List.sum_cons,
          ih]
      · rw [if_neg h, if_neg (fun hc => h (of_decide_eq_true hc)), ih,
          zero_add]

/-!  ## Claim theorems -/

/-- C7: on every valid series the Baseline-Smoothing strategy's `fit`
succeeds and `forecast(H)` produces a flat point forecast — the rounded
final EWM value of the history at every step — with interval
`value ± z(confidence) × residual_std × sqrt(h)` at step `h`, where
`residual_std` is the (sample) standard deviation of
`actual − smoothed` over the history and
`z = norm.ppf((1 + confidence)/2)`. -/
theorem simple_forecast_flat_ewm_sqrt_intervals
    (ppf : ℝ → ℝ) (span : ℕ) (conf : ℝ) (s : List (ℤ × ℝ)) (H : ℕ)
    (hval : validatePrices s 5 = true) :
    simpleFit span conf s = Except.ok (simpleFitSt span conf s) ∧
    simpleForecast ppf (simpleFitSt span conf s) H = Except.ok
      { dates := (List.range H).map (fun (i : ℕ) =>
          (s.map Prod.fst).getLast?.getD 0 +
            inferFreqDays (s.map Prod.fst) * ((i : ℤ) + 1))
        pointForecast := (List.range H).map (fun _ =>
          round4 ((ewmMean span (s.map Prod.snd)).getLast?.getD 0))
        lowerBound := (List.range H).map (fun (i : ℕ) =>
          round4 ((ewmMean span (s.map Prod.snd)).getLast?.getD 0 -
            ppf ((1 + conf) / 2) *
              sampleStd ((s.map Prod.snd).zipWith (· - ·)
                (ewmMean span (s.map Prod.snd))) *
              Real.sqrt ((i : ℝ) + 1)))
        upperBound := (List.range H).map (fun (i : ℕ) =>
          round4 ((ewmMean span (s.map Prod.snd)).getLast?.getD 0 +
            ppf ((1 + conf) / 2) *
              sampleStd ((s.map Prod.snd).zipWith (· - ·)
                (ewmMean span (s.map Prod.snd))) *
              Real.sqrt ((i : ℝ) + 1)))
        confidenceLevel := conf } := by
  constructor
  · simp [simpleFit, hval]
  · rfl

/-- C7 witness: the theorem applied to the concrete 5-point series
`seriesW`. -/
theorem simple_forecast_flat_ewm_sqrt_intervals_witness :
    validatePrices seriesW 5 = true ∧
    (simpleFit 20 (1 / 2) seriesW =
        Except.ok (simpleFitSt 20 (1 / 2) seriesW) ∧
      simpleForecast ppfCE (simpleFitSt 20 (1 / 2) seriesW) 4 = Except.ok
        { dates := (List.range 4).map (fun (i : ℕ) =>
            (seriesW.map Prod.fst).getLast?.getD 0 +
              inferFreqDays (seriesW.map Prod.fst) * ((i : ℤ) + 1))
          pointForecast := (List.range 4).map (fun _ =>
            round4 ((ewmMean 20 (seriesW.map Prod.snd)).getLast?.getD 0))
          lowerBound := (List.range 4).map (fun (i : ℕ) =>
            round4 ((ewmMean 20 (seriesW.map Prod.snd)).getLast?.getD 0 -
              ppfCE ((1 + 1 / 2) / 2) *
                sampleStd ((seriesW.map Prod.snd).zipWith (· - ·)
                  (ewmMean 20 (seriesW.map Prod.snd))) *
                Real.sqrt ((i : ℝ) + 1)))
          upperBound := (List.range 4).map (fun (i : ℕ) =>
            round4 ((ewmMean 20 (seriesW.map Prod.snd)).getLast?.getD 0 +
              ppfCE ((1 + 1 / 2) / 2) *
                sampleStd ((seriesW.map Prod.snd).zipWith (· - ·)
                  (ewmMean 20 (seriesW.map Prod.snd))) *
                Real.sqrt ((i : ℝ) + 1)))
          confidenceLevel := 1 / 2 }) :=
  ⟨by decide,
    simple_forecast_flat_ewm_sqrt_intervals ppfCE 20 (1 / 2) seriesW 4 (by decide)⟩

/-- C8: on every strategy instance whose fitted flag is false — the state
of a fresh instance, and of one whose `fit` raised a validation error
(validation runs before any state is written) — `forecast` raises the
precondition `ValueError` and produces no result, for all five
strategies. -/
theorem forecast_before_fit_is_precondition_error :
    (∀ (ppf : ℝ → ℝ) (st : SimpleState) (H : ℕ), st.isFitted = false →
      simpleForecast ppf st H = Except.error FErr.notFitted) ∧
    (∀ (ppf : ℝ → ℝ) (st : LstmState) (H : ℕ), st.isFitted = false →
      lstmForecast ppf st H = Except.error FErr.notFitted) ∧
    (∀ (st : ProphetState) (H : ℕ), st.isFitted = false →
      prophetForecast st H = Except.error FErr.notFitted) ∧
    (∀ (art : Option XgbArtifact) (st : PXgbState) (H : ℕ),
      st.isFitted = false →
      pxgbForecast art st H = Except.error FErr.notFitted) ∧
    (∀ (pipe : ChronosPipeline) (st : ChronosState) (H : ℕ),
      st.isFitted = false →
      chronosForecast pipe st H = Except.error FErr.notFitted) := by
  refine ⟨?_, ?_, ?_, ?_, ?_⟩
  · intro ppf st H h
    cases hp : st.prices <;> simp [simpleForecast, h, hp]
  · intro ppf st H h
    cases hm : st.model <;> simp [lstmForecast, h, hm]
  · intro st H h
    cases hm : st.model <;> simp [prophetForecast, h, hm]
  · intro art st H h
    cases hm : st.prophet <;> cases hp : st.prices <;>
      simp [pxgbForecast, h, hm, hp]
  · intro pipe st H h
    cases hp : st.prices <;> simp [chronosForecast, h, hp]

/-- C8 witness: the theorem applied to the five freshly-constructed
(unfitted) instances. -/
theorem forecast_before_fit_is_precondition_error_witness :
    simpleForecast ppfCE (simpleInit 20 (1 / 2)) 3 = Except.error FErr.notFitted ∧
    lstmForecast ppfCE (lstmInit 20 (1 / 2)) 3 = Except.error FErr.notFitted ∧
    prophetForecast (prophetInit (1 / 2)) 3 = Except.error FErr.notFitted ∧
    pxgbForecast none (pxgbInit (1 / 2) 0) 3 = Except.error FErr.notFitted ∧
    chronosForecast chronosPipeCE (chronosInit (1 / 2)) 3 =
      Except.error FErr.notFitted :=
  ⟨forecast_before_fit_is_precondition_error.1 ppfCE (simpleInit 20 (1 / 2)) 3 rfl,
    forecast_before_fit_is_precondition_error.2.1 ppfCE (lstmInit 20 (1 / 2)) 3 rfl,
    forecast_before_fit_is_precondition_error.2.2.1 (prophetInit (1 / 2)) 3 rfl,
    forecast_before_fit_is_precondition_error.2.2.2.1 none (pxgbInit (1 / 2) 0) 3 rfl,
    forecast_before_fit_is_precondition_error.2.2.2.2 chronosPipeCE
      (chronosInit (1 / 2)) 3 rfl⟩

/-- C6 (amended): for the Baseline-Smoothing strategy, on every fitted
instance with `residual_std > 0` (and nonnegative `z`, which the probit
guarantees for every confidence level in `(0, 1)`), the interval width
`upper[i] − lower[i]` is non-decreasing in the step index.  The
Recurrent-Sequence strategy does not satisfy the claim (see the
counterexample): its zero-clamped lower bound and per-step rounding
around a *varying* point forecast can strictly shrink the width. -/
theorem simple_interval_width_monotone
    (ppf : ℝ → ℝ) (st : SimpleState) (s : List (ℤ × ℝ)) (H : ℕ)
    (hfit : st.isFitted = true) (hp : st.prices = some s)
    (hσ : 0 < st.residualStd)
    (hz : 0 ≤ ppf ((1 + st.confidenceLevel) / 2))
    (r : ForecastResult) (hr : simpleForecast ppf st H = Except.ok r)
    (i j : ℕ) (hij : i ≤ j) (hj : j < H) :
    r.upperBound.getD i 0 - r.lowerBound.getD i 0 ≤
      r.upperBound.getD j 0 - r.lowerBound.getD j 0 := by
  have hi : i < H := lt_of_le_of_lt hij hj
  rw [simpleForecast, hfit, hp] at hr
  have hr' : simpleForecastCore ppf st H ((s.map Prod.fst).getLast?.getD 0) = r := by
    exact Except.ok.inj hr
  subst hr'
  simp only [simpleForecastCore]
  rw [getD_map_range _ hi, getD_map_range _ hj, getD_map_range _ hi,
    getD_map_range _ hj]
  have hm : ppf ((1 + st.confidenceLevel) / 2) * st.residualStd *
      Real.sqrt ((i : ℝ) + 1) ≤
      ppf ((1 + st.confidenceLevel) / 2) * st.residualStd *
      Real.sqrt ((j : ℝ) + 1) := by
    apply mul_le_mul_of_nonneg_left
    · apply Real.sqrt_le_sqrt
      have hij' : (i : ℝ) ≤ (j : ℝ) := Nat.cast_le.mpr hij
      linarith
    · exact mul_nonneg hz hσ.le
  have hu := round4_mono (show st.ewmValue +
      ppf ((1 + st.confidenceLevel) / 2) * st.residualStd *
        Real.sqrt ((i : ℝ) + 1) ≤
      st.ewmValue + ppf ((1 + st.confidenceLevel) / 2) * st.residualStd *
        Real.sqrt ((j : ℝ) + 1) by linarith)
  have hl := round4_mono (show st.ewmValue -
      ppf ((1 + st.confidenceLevel) / 2) * st.residualStd *
        Real.sqrt ((j : ℝ) + 1) ≤
      st.ewmValue - ppf ((1 + st.confidenceLevel) / 2) * st.residualStd *
        Real.sqrt ((i : ℝ) + 1) by linarith)
  linarith

/-- C6 amended-claim witness: the theorem applied to the concrete fitted
state `simpleStC6W` (residual std 1 > 0) at steps 1 and 3 of a 3-step
forecast. -/
theorem simple_interval_width_monotone_witness :
    simpleStC6W.isFitted = true ∧ simpleStC6W.prices = some [(0, 1)] ∧
    (0 : ℝ) < simpleStC6W.residualStd ∧
    (0 : ℝ) ≤ ppfCE ((1 + simpleStC6W.confidenceLevel) / 2) ∧
    (∀ (r : ForecastResult),
      simpleForecast ppfCE simpleStC6W 3 = Except.ok r →
      r.upperBound.getD 0 0 - r.lowerBound.getD 0 0 ≤
        r.upperBound.getD 2 0 - r.lowerBound.getD 2 0) :=
  ⟨rfl, rfl, by norm_num [simpleStC6W], by norm_num [ppfCE],
    fun r hr => simple_interval_width_monotone ppfCE simpleStC6W [(0, 1)] 3
      rfl rfl (by norm_num [simpleStC6W]) (by norm_num [ppfCE]) r hr
      0 2 (by norm_num) (by norm_num)⟩

/-- C6 counterexample: a fitted Recurrent-Sequence (LSTM) instance with
validation residual std 5 > 0 whose interval width strictly *decreases*
from step 1 (width 20) to step 4 (width −80): the autoregressive network
output at step 4 is the out-of-range price −100, the lower bound is
zero-clamped to 0 while the upper bound −80 falls below it.  (`ppfCE`
stands for the probit at a confidence level where it returns exactly 2;
see its docstring.) -/
theorem lstm_interval_width_not_monotone :
    lstmForecast ppfCE lstmStCE 4 = Except.ok lstmResCE ∧
    (0 : ℝ) < lstmStCE.valResidualStd ∧
    lstmResCE.upperBound.getD 0 0 - lstmResCE.lowerBound.getD 0 0 = 20 ∧
    lstmResCE.upperBound.getD 3 0 - lstmResCE.lowerBound.getD 3 0 = -80 ∧
    lstmResCE.upperBound.getD 3 0 - lstmResCE.lowerBound.getD 3 0 <
      lstmResCE.upperBound.getD 0 0 - lstmResCE.lowerBound.getD 0 0 := by
  have h30 : round4 (30 : ℝ) = 30 := by
    rw [show (30 : ℝ) = ((30 : ℤ) : ℝ) by norm_num, round4_ofInt]
  have h10 : round4 (10 : ℝ) = 10 := by
    rw [show (10 : ℝ) = ((10 : ℤ) : ℝ) by norm_num, round4_ofInt]
  have hm80 : round4 (-80 : ℝ) = -80 := by
    rw [show (-80 : ℝ) = ((-80 : ℤ) : ℝ) by norm_num, round4_ofInt]
  have hw0 : lstmResCE.upperBound.getD 0 0 - lstmResCE.lowerBound.getD 0 0 = 20 := by
    simp only [lstmResCE_upperBound, lstmResCE_lowerBound, List.getD_cons_zero]
    rw [h30, h10]; norm_num
  have hw3 : lstmResCE.upperBound.getD 3 0 - lstmResCE.lowerBound.getD 3 0 = -80 := by
    simp only [lstmResCE_upperBound, lstmResCE_lowerBound, List.getD_cons_succ,
      List.getD_cons_zero]
    rw [hm80, round4_zero]; norm_num
  exact ⟨rfl, by norm_num [lstmStCE], hw0, hw3, by rw [hw0, hw3]; norm_num⟩

/-- C1 counterexample: the fitted Recurrent-Sequence (LSTM) instance
`lstmStCE` violates the bound ordering at step 2 of `forecast(4)`: the
autoregressive network output there is the out-of-range price −20, the
zero-clamped lower bound `round(max(price − margin, 0), 4) = 0` exceeds
the point forecast −20.  (The four output sequences still have length 4;
only the `lower ≤ point` half of the claim fails.) -/
theorem lstm_bound_ordering_violated :
    lstmForecast ppfCE lstmStCE 4 = Except.ok lstmResCE ∧
    lstmResCE.pointForecast.getD 1 0 = -20 ∧
    lstmResCE.lowerBound.getD 1 0 = 0 ∧
    ¬ (lstmResCE.lowerBound.getD 1 0 ≤ lstmResCE.pointForecast.getD 1 0) := by
  have hm20 : round4 (-20 : ℝ) = -20 := by
    rw [show (-20 : ℝ) = ((-20 : ℤ) : ℝ) by norm_num, round4_ofInt]
  have hmax : max (-20 - 10 * Real.sqrt 2) 0 = (0 : ℝ) :=
    max_eq_right (by nlinarith [Real.sqrt_nonneg (2 : ℝ)])
  have hpt : lstmResCE.pointForecast.getD 1 0 = -20 := by
    rw [lstmResCE_pointForecast]
    simp only [List.getD_cons_succ, List.getD_cons_zero]
    exact hm20
  have hlo : lstmResCE.lowerBound.getD 1 0 = 0 := by
    rw [lstmResCE_lowerBound]
    simp only [List.getD_cons_succ, List.getD_cons_zero]
    rw [hmax, round4_zero]
  exact ⟨rfl, hpt, hlo, by rw [hpt, hlo]; norm_num⟩

/-- C9: the Walk-Forward Evaluator returns the shortfall report — error
message set, empty metrics, empty bounds, no per-step work — exactly when
the series has fewer than `window_size + minimum_training_size` points
(`minimum_training_size` being 52 for weekly cadence, 24 for monthly);
otherwise the error is absent and the per-strategy backtest and bounds
runs proceed over the requested model list. -/
theorem walk_forward_shortfall_iff
    (ext : ExtStep) (ppf : ℝ → ℝ) (prices : List (ℤ × ℝ)) (interval : Cadence)
    (lastN lookback : ℕ) (conf : ℝ) (models : Option (List ModelName))
    (bh : Option ℕ) :
    ((walkForwardBacktest ext ppf prices interval lastN lookback conf models
        bh).shortfallError ≠ none ↔
      prices.length < lastN + minTrain interval) ∧
    (prices.length < lastN + minTrain interval →
      walkForwardBacktest ext ppf prices interval lastN lookback conf models
          bh =
        { metrics := []
          boundsHorizonWeeks := min 12 lastN
          bounds := []
          shortfallError := some (lastN + minTrain interval, prices.length)
          lastNWeeks := none }) ∧
    (lastN + minTrain interval ≤ prices.length →
      (walkForwardBacktest ext ppf prices interval lastN lookback conf models
          bh).shortfallError = none ∧
      (walkForwardBacktest ext ppf prices interval lastN lookback conf models
          bh).metrics =
        (models.getD [ModelName.base, ModelName.prophet]).filterMap (fun m =>
          (runWalkForwardOneStep ext ppf prices m lastN lookback conf).map
            (fun r => (m, r))) ∧
      (walkForwardBacktest ext ppf prices interval lastN lookback conf models
          bh).bounds =
        (models.getD [ModelName.base, ModelName.prophet]).filterMap (fun m =>
          (boundsForecast ext ppf prices m
            (bh.getD (if interval = Cadence.wk then 12 else 4)) lookback
            conf).map (fun b => (m, b)))) := by
  by_cases h : prices.length < lastN + minTrain interval
  · refine ⟨?_, fun _ => ?_, fun h2 => absurd h (not_lt.mpr h2)⟩
    · simp [walkForwardBacktest, h]
    · simp [walkForwardBacktest, h]
  · refine ⟨?_, fun h2 => absurd h2 h, fun _ => ?_⟩
    · simp [walkForwardBacktest, h]
    · refine ⟨?_, ?_, ?_⟩ <;> simp [walkForwardBacktest, h]

/-- C10: requesting the recurrent strategy (`"lstm"`) from the
walk-forward backtest silently yields nothing: the per-step construction
refers to `LSTMForecastor`, a name `metrics.py` never imports, so every
step raises `NameError`, is caught and skipped, the successful-step count
stays at 0 < 5 and `_run_walk_forward_one_step` returns `None`; hence the
top-level metrics list never contains an `"lstm"` entry. -/
theorem lstm_backtest_silently_omitted :
    (∀ (ext : ExtStep) (ppf : ℝ → ℝ) (prices : List (ℤ × ℝ))
      (lastN lookback : ℕ) (conf : ℝ),
      runWalkForwardOneStep ext ppf prices ModelName.lstm lastN lookback conf
        = none) ∧
    (∀ (ext : ExtStep) (ppf : ℝ → ℝ) (prices : List (ℤ × ℝ))
      (interval : Cadence) (lastN lookback : ℕ) (conf : ℝ)
      (models : Option (List ModelName)) (bh : Option ℕ),
      ((walkForwardBacktest ext ppf prices interval lastN lookback conf
        models bh).metrics.all (fun e => !(e.1 == ModelName.lstm))) = true) := by
  have hnone : ∀ (ext : ExtStep) (ppf : ℝ → ℝ) (prices : List (ℤ × ℝ))
      (lastN lookback : ℕ) (conf : ℝ),
      runWalkForwardOneStep ext ppf prices ModelName.lstm lastN lookback conf
        = none := by
    intro ext ppf prices lastN lookback conf
    have hnil : (stepIndices prices.length lastN lookback).filterMap
        (fun t => (stepPredict ext ppf conf lookback ModelName.lstm
          (prices.take t.toNat)).map
            (fun pred => ((prices.getD t.toNat (0, 0)).2, pred))) = [] :=
      List.filterMap_eq_nil_iff.mpr (fun _ _ => rfl)
    simp only [runWalkForwardOneStep]
    rw [hnil]
    simp
  refine ⟨hnone, ?_⟩
  intro ext ppf prices interval lastN lookback conf models bh
  rw [List.all_eq_true]
  intro e he
  suffices hne : e.1 ≠ ModelName.lstm by simpa using hne
  revert he
  have key : ∀ (ms : List ModelName),
      e ∈ ms.filterMap (fun m =>
        (runWalkForwardOneStep ext ppf prices m lastN lookback conf).map
          (fun r => (m, r))) → e.1 ≠ ModelName.lstm := by
    intro ms hmem habs
    rw [List.mem_filterMap] at hmem
    obtain ⟨m, _, hmap⟩ := hmem
    cases hrun : runWalkForwardOneStep ext ppf prices m lastN lookback conf with
    | none => rw [hrun] at hmap; exact Option.noConfusion hmap
    | some r =>
        rw [hrun] at hmap
        have he1 : e = (m, r) := (Option.some.inj hmap).symm
        have hm2 : m = ModelName.lstm := by rw [he1] at habs; exact habs
        rw [hm2, hnone] at hrun
        exact Option.noConfusion hrun
  intro he
  by_cases h : prices.length < lastN + minTrain interval
  · simp [walkForwardBacktest, h] at he
  · have hmetrics : (walkForwardBacktest ext ppf prices interval lastN lookback
        conf models bh).metrics =
        (models.getD [ModelName.base, ModelName.prophet]).filterMap (fun m =>
          (runWalkForwardOneStep ext ppf prices m lastN lookback conf).map
            (fun r => (m, r))) := by
      simp [walkForwardBacktest, h]
    rw [hmetrics] at he
    exact key _ he

/-- C3: at every step attempted by the walk-forward loop the training
prefix is `prices.iloc[:train_end]` and the test observation sits at
index `train_end`, so on a series with strictly increasing timestamps
every timestamp in the training prefix is strictly smaller than the test
timestamp (`max(train.timestamps) < test.timestamp`). -/
theorem walk_forward_training_strictly_before_test
    (prices : List (ℤ × ℝ)) (lastN lookback : ℕ)
    (hmono : List.Pairwise (· < ·) (prices.map Prod.fst))
    (t : ℤ) (ht : t ∈ stepIndices prices.length lastN lookback)
    (i : ℕ) (hi : i < t.toNat) :
    (prices.map Prod.fst).getD i 0 < (prices.map Prod.fst).getD t.toNat 0 := by
  unfold stepIndices at ht
  rw [List.mem_filter] at ht
  obtain ⟨htmem, htge⟩ := ht
  rw [List.mem_map] at htmem
  obtain ⟨k, hk, hkt⟩ := htmem
  rw [List.mem_range] at hk
  have ht5 : (lookback : ℤ) + 5 ≤ t := by simpa using htge
  have hkz : (k : ℤ) < (lastN : ℤ) := by exact_mod_cast hk
  have htn : t < (prices.length : ℤ) := by omega
  have hlb : (0 : ℤ) ≤ (lookback : ℤ) := Int.ofNat_nonneg _
  have htn' : t.toNat < prices.length := by omega
  have hlen : t.toNat < (prices.map Prod.fst).length := by
    simpa [List.length_map] using htn'
  have hleni : i < (prices.map Prod.fst).length := lt_trans hi hlen
  rw [List.getD_eq_getElem _ _ hleni, List.getD_eq_getElem _ _ hlen]
  exact List.pairwise_iff_getElem.mp hmono i t.toNat hleni hlen hi

/-- C3 witness: the theorem applied to a 53-point strictly increasing
series with `last_n = 1`, `lookback = 20`; the single attempted step has
`train_end = 52`, and e.g. the training timestamp at index 51 is smaller
than the test timestamp. -/
theorem walk_forward_training_strictly_before_test_witness :
    List.Pairwise (· < ·) (wfSeriesW.map Prod.fst) ∧
    (52 : ℤ) ∈ stepIndices wfSeriesW.length 1 20 ∧ 51 < (52 : ℤ).toNat ∧
    (wfSeriesW.map Prod.fst).getD 51 0 <
      (wfSeriesW.map Prod.fst).getD (52 : ℤ).toNat 0 := by
  have hmono : List.Pairwise (· < ·) (wfSeriesW.map Prod.fst) := by
    have hmap : wfSeriesW.map Prod.fst =
        (List.range 53).map (fun (i : ℕ) => (i : ℤ)) := by
      simp [wfSeriesW, List.map_map, Function.comp]
    rw [hmap, List.pairwise_map]
    exact (List.pairwise_lt_range 53).imp (fun h => by exact_mod_cast h)
  have hmem : (52 : ℤ) ∈ stepIndices wfSeriesW.length 1 20 := by
    have hlen : wfSeriesW.length = 53 := by simp [wfSeriesW]
    rw [hlen]
    decide
  exact ⟨hmono, hmem, by norm_num,
    walk_forward_training_strictly_before_test wfSeriesW 1 20 hmono 52 hmem 51
      (by norm_num)⟩

/-- C2 (amended): the aggregator's MAPE never divides by a zero actual —
pairs with `actual = 0` contribute `0` to the numerator — but they are
*not excluded from the mean*: the sum of `|(a − p)/a|` over the
nonzero-actual pairs is divided by the total pair count `n`, equivalently
the MAPE equals `(k/n) ×` (the spec's nonzero-only mean), `k` being the
number of nonzero-actual pairs.  The computation is total (never
raises). -/
theorem mape_keeps_zero_actuals_in_denominator
    (actual predicted : List ℝ) (hlen : actual.length = predicted.length)
    (hpos : 0 < actual.length) :
    (maeRmseMape actual predicted).mape =
      round4 ((((actual.zip predicted).filter
            (fun ap => decide (ap.1 ≠ 0))).length : ℝ) / (actual.length : ℝ) *
        (lmean (((actual.zip predicted).filter
            (fun ap => decide (ap.1 ≠ 0))).map
          (fun ap => |(ap.1 - ap.2) / ap.1|)) * 100)) := by
  have hz : (actual.zip predicted).length = actual.length := by
    rw [List.length_zip, hlen, min_self]
  show round4 (lmean ((actual.zip predicted).map (fun ap =>
      if ap.1 ≠ 0 then |(ap.1 - ap.2) / ap.1| else 0)) * 100) = _
  congr 1
  rw [lmean, lmean, List.length_map, hz,
    sum_map_mask_eq_sum_filter (fun ap => |(ap.1 - ap.2) / ap.1|),
    List.length_map]
  set k := ((actual.zip predicted).filter (fun ap => decide (ap.1 ≠ 0))).length
    with hk
  set S := (((actual.zip predicted).filter (fun ap => decide (ap.1 ≠ 0))).map
    (fun ap => |(ap.1 - ap.2) / ap.1|)).sum with hS
  have hn : (actual.length : ℝ) ≠ 0 := ne_of_gt (Nat.cast_pos.mpr hpos)
  by_cases hk0 : k = 0
  · have hS0 : S = 0 := by
      rw [hS, hk] at *
      have : ((actual.zip predicted).filter
          (fun ap => decide (ap.1 ≠ 0))) = [] := List.length_eq_zero.mp hk0
      rw [hS]
      rw [this]
      simp
    rw [hS0, hk0]
    simp
  · have hkR : (k : ℝ) ≠ 0 := Nat.cast_ne_zero.mpr hk0
    field_simp
    ring

/-- C2 counterexample: on `actual = [1, 0]`, `predicted = [2, 1]` the
implementation returns MAPE 50 — the single 100 % error at the nonzero
index is averaged over *both* indices — while the claimed
nonzero-only mean is 100.  (No exception is raised on the zero actual;
only the "mean over only the nonzero-actual indices" part of the claim
is false.) -/
theorem mape_zero_actual_dilutes_mean :
    (maeRmseMape [1, 0] [2, 1]).mape = 50 ∧
    mapeSpec [1, 0] [2, 1] = 100 ∧
    (maeRmseMape [1, 0] [2, 1]).mape ≠ mapeSpec [1, 0] [2, 1] := by
  have h50 : round4 (50 : ℝ) = 50 := by
    rw [show (50 : ℝ) = ((50 : ℤ) : ℝ) by norm_num, round4_ofInt]
  have h100 : round4 (100 : ℝ) = 100 := by
    rw [show (100 : ℝ) = ((100 : ℤ) : ℝ) by norm_num, round4_ofInt]
  have hcode : (maeRmseMape [1, 0] [2, 1]).mape = 50 := by
    show round4 (lmean ((([1, 0] : List ℝ).zip ([2, 1] : List ℝ)).map (fun ap =>
        if ap.1 ≠ 0 then |(ap.1 - ap.2) / ap.1| else 0)) * 100) = 50
    rw [show (lmean ((([1, 0] : List ℝ).zip ([2, 1] : List ℝ)).map (fun ap =>
        if ap.1 ≠ 0 then |(ap.1 - ap.2) / ap.1| else 0)) * 100) = 50 by
      norm_num [lmean, List.zip_cons_cons]]
    exact h50
  have hspec : mapeSpec [1, 0] [2, 1] = 100 := by
    show round4 (lmean (((([1, 0] : List ℝ).zip ([2, 1] : List ℝ)).filter
        (fun ap => decide (ap.1 ≠ 0))).map
          (fun ap => |(ap.1 - ap.2) / ap.1|)) * 100) = 100
    rw [show (lmean (((([1, 0] : List ℝ).zip ([2, 1] : List ℝ)).filter
        (fun ap => decide (ap.1 ≠ 0))).map
          (fun ap => |(ap.1 - ap.2) / ap.1|)) * 100) = 100 by
      norm_num [lmean, List.zip_cons_cons, List.filter_cons]]
    exact h100
  exact ⟨hcode, hspec, by rw [hcode, hspec]; norm_num⟩

/-- C2 amended-claim witness: the theorem applied to the concrete pair
`([1, 0], [2, 1])`. -/
theorem mape_keeps_zero_actuals_in_denominator_witness :
    ([1, 0] : List ℝ).length = ([2, 1] : List ℝ).length ∧
    0 < ([1, 0] : List ℝ).length ∧
    (maeRmseMape [1, 0] [2, 1]).mape =
      round4 ((((([1, 0] : List ℝ).zip ([2, 1] : List ℝ)).filter
            (fun ap => decide (ap.1 ≠ 0))).length : ℝ) /
          (([1, 0] : List ℝ).length : ℝ) *
        (lmean (((([1, 0] : List ℝ).zip ([2, 1] : List ℝ)).filter
            (fun ap => decide (ap.1 ≠ 0))).map
          (fun ap => |(ap.1 - ap.2) / ap.1|)) * 100)) :=
  ⟨rfl, by norm_num,
    mape_keeps_zero_actuals_in_denominator [1, 0] [2, 1] rfl (by norm_num)⟩

/-- C4 (amended): when the Prophet+XGB correction artifact is unavailable
(missing file or missing joblib), `forecast(H)` does not raise — it
returns exactly the internal Trend-Seasonality (Prophet) forecast for the
whole horizon.  Contrary to the second half of the claim, however,
`get_model_info()` carries no degraded-mode flag: it is a function of the
configured path, confidence level and fitted flag only, so its output is
identical whether or not the artifact is available (see the
counterexample theorem). -/
theorem pxgb_degraded_mode_returns_prophet_only
    (st : PXgbState) (pst : ProphetState) (s : List (ℤ × ℝ)) (H : ℕ)
    (hfit : st.isFitted = true) (hpro : st.prophet = some pst)
    (hpr : st.prices = some s)
    (hconf : pst.confidenceLevel = st.confidenceLevel)
    (pr : ForecastResult) (hok : prophetForecast pst H = Except.ok pr) :
    pxgbForecast none st H = Except.ok pr := by
  obtain ⟨d, p, l, u, c⟩ := pr
  have hprc : c = pst.confidenceLevel := by
    cases hf : pst.isFitted <;> cases hm : pst.model <;>
      simp only [prophetForecast, hf, hm] at hok
    · exact Except.noConfusion hok
    · exact Except.noConfusion hok
    · exact Except.noConfusion hok
    · have h2 := congrArg ForecastResult.confidenceLevel (Except.ok.inj hok)
      exact h2.symm
  simp only [pxgbForecast, hfit, hpro, hpr]
  rw [hok]
  show Except.ok
      ({ dates := d, pointForecast := p, lowerBound := l, upperBound := u
         confidenceLevel := st.confidenceLevel } : ForecastResult) =
    Except.ok
      ({ dates := d, pointForecast := p, lowerBound := l, upperBound := u
         confidenceLevel := c } : ForecastResult)
  rw [hprc, hconf]

/-- C4 witness: the theorem applied to the concrete fitted hybrid state
`pxgbStCE` with no artifact: the result is exactly `prophetResCE`, the
Prophet-only forecast. -/
theorem pxgb_degraded_mode_returns_prophet_only_witness :
    pxgbStCE.isFitted = true ∧ pxgbStCE.prophet = some prophetStCE ∧
    pxgbStCE.prices = some [(0, 10), (7, 11), (14, 12)] ∧
    prophetStCE.confidenceLevel = pxgbStCE.confidenceLevel ∧
    prophetForecast prophetStCE 2 = Except.ok prophetResCE ∧
    pxgbForecast none pxgbStCE 2 = Except.ok prophetResCE :=
  ⟨rfl, rfl, rfl, rfl, rfl,
    pxgb_degraded_mode_returns_prophet_only pxgbStCE prophetStCE
      [(0, 10), (7, 11), (14, 12)] 2 rfl rfl rfl rfl prophetResCE rfl⟩

/-- C4 counterexample: there is no distinguishable degraded-mode flag in
`get_model_info()`.  A forecast-then-describe interaction with the
artifact unavailable and the same interaction with the artifact present
yield the *same* metadata record — `get_model_info` reads only the
configured path, the confidence level and the fitted flag
(`prophet_xgb.py` lines 167–177), never the artifact availability —
so a caller cannot distinguish degraded mode from `describe()` output,
refuting the claimed flag. -/
theorem pxgb_no_degraded_mode_flag :
    (pxgbRun none pxgbStCE 2).2 = (pxgbRun (some artCE) pxgbStCE 2).2 ∧
    (pxgbRun none pxgbStCE 2).2 =
      { confidenceLevel := 0.95, artifactPath := 0, isFitted := true } :=
  ⟨rfl, rfl⟩

/-- C5: with the correction artifact available, the hybrid forecast
differs from the internal Prophet forecast only in the first point:
`dates`, `lower_bound` and `upper_bound` are Prophet's lists unchanged,
the point forecasts from step 2 on are Prophet's (`rest`), and the first
point becomes `round4(prophet_point₁ + predicted_residual)`. -/
theorem pxgb_correction_changes_only_first_point
    (a : XgbArtifact) (st : PXgbState) (pst : ProphetState)
    (s : List (ℤ × ℝ)) (H : ℕ)
    (hfit : st.isFitted = true) (hpro : st.prophet = some pst)
    (hpr : st.prices = some s)
    (pr : ForecastResult) (hok : prophetForecast pst H = Except.ok pr)
    (p0 : ℝ) (rest : List ℝ) (hpf : pr.pointForecast = p0 :: rest) :
    pxgbForecast (some a) st H = Except.ok
      { dates := pr.dates
        pointForecast :=
          round4 (p0 + pxgbCorrection a s st.insampleYhat) :: rest
        lowerBound := pr.lowerBound
        upperBound := pr.upperBound
        confidenceLevel := st.confidenceLevel } := by
  simp only [pxgbForecast, hfit, hpro, hpr]
  rw [hok]
  simp only [hpf]

/-- C5 witness: the theorem applied to the concrete fitted hybrid state
`pxgbStCE` with artifact `artCE` over horizon 2. -/
theorem pxgb_correction_changes_only_first_point_witness :
    pxgbStCE.isFitted = true ∧ pxgbStCE.prophet = some prophetStCE ∧
    pxgbStCE.prices = some [(0, 10), (7, 11), (14, 12)] ∧
    prophetForecast prophetStCE 2 = Except.ok prophetResCE ∧
    prophetResCE.pointForecast = round4 10 :: [round4 10] ∧
    pxgbForecast (some artCE) pxgbStCE 2 = Except.ok
      { dates := prophetResCE.dates
        pointForecast := round4 (round4 10 +
          pxgbCorrection artCE [(0, 10), (7, 11), (14, 12)]
            pxgbStCE.insampleYhat) :: [round4 10]
        lowerBound := prophetResCE.lowerBound
        upperBound := prophetResCE.upperBound
        confidenceLevel := pxgbStCE.confidenceLevel } :=
  ⟨rfl, rfl, rfl, rfl, rfl,
    pxgb_correction_changes_only_first_point artCE pxgbStCE prophetStCE
      [(0, 10), (7, 11), (14, 12)] 2 rfl rfl rfl prophetResCE rfl
      (round4 10) [round4 10] rfl⟩

/-- Shape of a Baseline-Smoothing forecast on a fit-produced state:
every output sequence has the requested length, and with a nonnegative
`z` the bounds bracket the point forecast. -/
theorem simple_forecast_shape
    (ppf : ℝ → ℝ) (span : ℕ) (conf : ℝ) (s : List (ℤ × ℝ)) (H : ℕ)
    (r : ForecastResult)
    (hok : simpleForecast ppf (simpleFitSt span conf s) H = Except.ok r) :
    (r.dates.length = H ∧ r.pointForecast.length = H ∧
      r.lowerBound.length = H ∧ r.upperBound.length = H) ∧
    (0 ≤ ppf ((1 + conf) / 2) → ∀ i, i < H →
      r.lowerBound.getD i 0 ≤ r.pointForecast.getD i 0 ∧
      r.pointForecast.getD i 0 ≤ r.upperBound.getD i 0) := by
  have hr : simpleForecastCore ppf (simpleFitSt span conf s) H
      ((s.map Prod.fst).getLast?.getD 0) = r := Except.ok.inj hok
  subst hr
  constructor
  · refine ⟨?_, ?_, ?_, ?_⟩ <;> simp [simpleForecastCore]
  · intro hz i hi
    have hσ : 0 ≤ (simpleFitSt span conf s).residualStd := sampleStd_nonneg _
    have hconf : (simpleFitSt span conf s).confidenceLevel = conf := rfl
    simp only [simpleForecastCore, hconf]
    rw [getD_map_range _ hi, getD_map_range _ hi, getD_map_range _ hi]
    have hs : 0 ≤ Real.sqrt ((i : ℝ) + 1) := Real.sqrt_nonneg _
    have hm : 0 ≤ ppf ((1 + conf) / 2) *
        (simpleFitSt span conf s).residualStd * Real.sqrt ((i : ℝ) + 1) :=
      mul_nonneg (mul_nonneg hz hσ) hs
    exact ⟨round4_mono (by linarith), round4_mono (by linarith)⟩

/-- Shape of a Recurrent-Sequence (LSTM) forecast: every output sequence
has the requested length; the upper bound always dominates the point
forecast, and the zero-clamped lower bound stays below the point forecast
at every step whose (rounded) point forecast is nonnegative. -/
theorem lstm_forecast_shape
    (ppf : ℝ → ℝ) (st : LstmState) (net : List ℝ → ℝ) (H : ℕ)
    (r : ForecastResult)
    (hfit : st.isFitted = true) (hmod : st.model = some net)
    (hσ : 0 ≤ st.valResidualStd)
    (hok : lstmForecast ppf st H = Except.ok r) :
    (r.dates.length = H ∧ r.pointForecast.length = H ∧
      r.lowerBound.length = H ∧ r.upperBound.length = H) ∧
    (0 ≤ ppf ((1 + st.confidenceLevel) / 2) → ∀ i, i < H →
      (r.pointForecast.getD i 0 ≤ r.upperBound.getD i 0) ∧
      (0 ≤ r.pointForecast.getD i 0 →
        r.lowerBound.getD i 0 ≤ r.pointForecast.getD i 0)) := by
  simp only [lstmForecast, hfit, hmod] at hok
  have hr : lstmForecastCore ppf st net H = r := Except.ok.inj hok
  subst hr
  have hplen : ((lstmRaws net st.lookback H
      (tailN st.lookback st.scaledPrices)).map
        (fun q => q * st.dataScale + st.dataMin)).length = H := by
    rw [List.length_map, lstmRaws_length]
  constructor
  · refine ⟨?_, ?_, ?_, ?_⟩ <;>
      simp [lstmForecastCore, List.length_mapIdx, lstmRaws_length]
  · intro hz i hi
    have hip : i < ((lstmRaws net st.lookback H
        (tailN st.lookback st.scaledPrices)).map
          (fun q => q * st.dataScale + st.dataMin)).length := by
      rw [hplen]; exact hi
    simp only [lstmForecastCore]
    rw [getD_map_round4, getD_mapIdx_lt _ _ hip 0, getD_mapIdx_lt _ _ hip 0]
    set p := ((lstmRaws net st.lookback H
      (tailN st.lookback st.scaledPrices)).map
        (fun q => q * st.dataScale + st.dataMin)).getD i 0 with hp
    have hs : 0 ≤ Real.sqrt ((i : ℝ) + 1) := Real.sqrt_nonneg _
    have hm : 0 ≤ ppf ((1 + st.confidenceLevel) / 2) *
        st.valResidualStd * Real.sqrt ((i : ℝ) + 1) :=
      mul_nonneg (mul_nonneg hz hσ) hs
    refine ⟨round4_mono (by linarith), ?_⟩
    intro hpt
    rw [round4_max, round4_zero]
    exact max_le (round4_mono (by linarith)) hpt

/-- Shape of a Trend-Seasonality (Prophet) forecast: each output sequence
has length `H` whenever the library supplies at least `H` prediction
rows, and the rounded bounds bracket the rounded point forecast whenever
the library's own quantile columns are ordered. -/
theorem prophet_forecast_shape
    (st : ProphetState) (m : ProphetModel) (H : ℕ) (r : ForecastResult)
    (hfit : st.isFitted = true) (hmod : st.model = some m)
    (hok : prophetForecast st H = Except.ok r) :
    ((H ≤ (m.predict H).ds.length → r.dates.length = H) ∧
      (H ≤ (m.predict H).yhat.length → r.pointForecast.length = H) ∧
      (H ≤ (m.predict H).yhatLower.length → r.lowerBound.length = H) ∧
      (H ≤ (m.predict H).yhatUpper.length → r.upperBound.length = H)) ∧
    ((∀ i, i < H →
        (tailN H (m.predict H).yhatLower).getD i 0 ≤
          (tailN H (m.predict H).yhat).getD i 0 ∧
        (tailN H (m.predict H).yhat).getD i 0 ≤
          (tailN H (m.predict H).yhatUpper).getD i 0) →
      ∀ i, i < H →
        r.lowerBound.getD i 0 ≤ r.pointForecast.getD i 0 ∧
        r.pointForecast.getD i 0 ≤ r.upperBound.getD i 0) := by
  simp only [prophetForecast, hfit, hmod] at hok
  have hr : prophetForecastCore st m H = r := Except.ok.inj hok
  subst hr
  constructor
  · refine ⟨?_, ?_, ?_, ?_⟩
    · intro hds
      simp only [prophetForecastCore]
      by_cases hD : (tailN H (m.predict H).ds).mapIdx
          (fun (i : ℕ) d => if d ≤ st.pricesDates.getLast?.getD 0 then
            st.pricesDates.getLast?.getD 0 + st.freqDays * ((i : ℤ) + 1)
          else d) = []
      · rw [if_pos hD]
        simp
      · rw [if_neg hD]
        rw [List.length_mapIdx, tailN_length_of_le hds]
    · intro hy
      simp only [prophetForecastCore]
      rw [List.length_map, tailN_length_of_le hy]
    · intro hy
      simp only [prophetForecastCore]
      rw [List.length_map, tailN_length_of_le hy]
    · intro hy
      simp only [prophetForecastCore]
      rw [List.length_map, tailN_length_of_le hy]
  · intro hord i hi
    simp only [prophetForecastCore]
    rw [getD_map_round4, getD_map_round4, getD_map_round4]
    obtain ⟨h1, h2⟩ := hord i hi
    exact ⟨round4_mono h1, round4_mono h2⟩

/-- Frame property of the hybrid (Prophet+XGB) forecast relative to its
internal Prophet forecast: dates and both bounds are identical, the point
forecasts agree from the second step on; with the artifact unavailable
the point forecasts are identical in full. -/
theorem pxgb_forecast_frame
    (art : Option XgbArtifact) (st : PXgbState) (pst : ProphetState)
    (s : List (ℤ × ℝ)) (H : ℕ) (r pr : ForecastResult)
    (hfit : st.isFitted = true) (hpro : st.prophet = some pst)
    (hpr : st.prices = some s)
    (hokp : prophetForecast pst H = Except.ok pr)
    (hok : pxgbForecast art st H = Except.ok r) :
    r.dates = pr.dates ∧ r.lowerBound = pr.lowerBound ∧
    r.upperBound = pr.upperBound ∧
    r.pointForecast.length = pr.pointForecast.length ∧
    r.pointForecast.tail = pr.pointForecast.tail ∧
    (art = none → r.pointForecast = pr.pointForecast) := by
  simp only [pxgbForecast, hfit, hpro, hpr] at hok
  rw [hokp] at hok
  cases art with
  | none =>
      have hok2 : Except.ok
          ({ dates := pr.dates, pointForecast := pr.pointForecast
             lowerBound := pr.lowerBound, upperBound := pr.upperBound
             confidenceLevel := st.confidenceLevel } : ForecastResult) =
          Except.ok r := hok
      have hr := Except.ok.inj hok2
      rw [← hr]
      exact ⟨rfl, rfl, rfl, rfl, rfl, fun _ => rfl⟩
  | some a =>
      have hok2 : (match pr.pointForecast with
          | [] => (Except.error FErr.indexError : Except FErr ForecastResult)
          | p0 :: rest =>
              Except.ok
                { dates := pr.dates
                  pointForecast :=
                    round4 (p0 + pxgbCorrection a s st.insampleYhat) :: rest
                  lowerBound := pr.lowerBound
                  upperBound := pr.upperBound
                  confidenceLevel := st.confidenceLevel }) =
          Except.ok r := hok
      cases hpf : pr.pointForecast with
      | nil => rw [hpf] at hok2; exact Except.noConfusion hok2
      | cons p0 rest =>
          rw [hpf] at hok2
          have hr := Except.ok.inj hok2
          rw [← hr]
          refine ⟨rfl, rfl, rfl, ?_, ?_, ?_⟩
          · simp
          · rfl
          · intro habs
            exact Option.noConfusion habs

/-- Shape of a Foundation-Zero-Shot (Chronos-2) forecast: every output
sequence has length `H` whenever the pipeline returns `H` rows, and the
rounded bounds bracket the rounded point forecast whenever the
pipeline's quantiles are ordered row-wise (in the missing-quantile
fallback the bounds equal the point forecast, so the ordering holds
regardless). -/
theorem chronos_forecast_shape
    (pipe : ChronosPipeline) (st : ChronosState) (s : List (ℤ × ℝ))
    (H : ℕ) (r : ForecastResult)
    (hfit : st.isFitted = true) (hp : st.prices = some s)
    (hok : chronosForecast pipe st H = Except.ok r) :
    ((pipe.predictDf s H).rows.length = H →
      r.dates.length = H ∧ r.pointForecast.length = H ∧
      r.lowerBound.length = H ∧ r.upperBound.length = H) ∧
    ((∀ row ∈ (pipe.predictDf s H).rows,
        row.2.2.1 ≤ row.2.1 ∧ row.2.1 ≤ row.2.2.2) →
      ∀ i, r.lowerBound.getD i 0 ≤ r.pointForecast.getD i 0 ∧
        r.pointForecast.getD i 0 ≤ r.upperBound.getD i 0) := by
  simp only [chronosForecast, hfit, hp] at hok
  cases hq : (pipe.predictDf s H).hasPoint with
  | false => rw [hq] at hok; simp at hok
  | true =>
      rw [hq] at hok
      simp only [if_true] at hok
      have hr := Except.ok.inj hok
      subst hr
      have hslen : ((pipe.predictDf s H).rows.mergeSort
          (fun a b => a.1 ≤ b.1)).length = (pipe.predictDf s H).rows.length :=
        List.length_mergeSort _
      constructor
      · intro hrows
        by_cases hb : ((pipe.predictDf s H).hasLow &&
            (pipe.predictDf s H).hasHigh) = true
        · refine ⟨?_, ?_, ?_, ?_⟩ <;>
            simp [hb, List.length_map, hslen, hrows]
        · rw [Bool.not_eq_true] at hb
          refine ⟨?_, ?_, ?_, ?_⟩ <;>
            simp [hb, List.length_map, hslen, hrows]
      · intro hord i
        set sorted := (pipe.predictDf s H).rows.mergeSort
          (fun a b => a.1 ≤ b.1) with hsorted
        by_cases hi : i < sorted.length
        · have hrowmem : sorted.getD i (0, 0, 0, 0) ∈
              (pipe.predictDf s H).rows := by
            have hmem : sorted.getD i (0, 0, 0, 0) ∈ sorted := by
              rw [List.getD_eq_getElem _ _ hi]
              exact List.getElem_mem hi
            exact (List.mergeSort_perm (pipe.predictDf s H).rows
              (fun a b => a.1 ≤ b.1)).mem_iff.mp hmem
          obtain ⟨ho1, ho2⟩ := hord _ hrowmem
          by_cases hb : ((pipe.predictDf s H).hasLow &&
              (pipe.predictDf s H).hasHigh) = true
          · simp only [hb, if_true]
            rw [getD_map_round4, getD_map_round4, getD_map_round4,
              getD_map_lt _ _ hi (0, 0, 0, 0), getD_map_lt _ _ hi (0, 0, 0, 0),
              getD_map_lt _ _ hi (0, 0, 0, 0)]
            exact ⟨round4_mono ho1, round4_mono ho2⟩
          · rw [Bool.not_eq_true] at hb
            simp only [hb, Bool.false_eq_true, if_false]
            exact ⟨le_refl _, le_refl _⟩
        · push_neg at hi
          by_cases hb : ((pipe.predictDf s H).hasLow &&
              (pipe.predictDf s H).hasHigh) = true
          · simp only [hb, if_true]
            rw [getD_map_round4, getD_map_round4, getD_map_round4,
              getD_ge _ (by simpa using hi), getD_ge _ (by simpa using hi),
              getD_ge _ (by simpa using hi)]
            exact ⟨le_refl _, le_refl _⟩
          · rw [Bool.not_eq_true] at hb
            simp only [hb, Bool.false_eq_true, if_false]
            exact ⟨le_refl _, le_refl _⟩

/-- C1 (amended): for every fitted strategy and horizon `H`, `forecast(H)`
returns four parallel sequences of length exactly `H` (for the two
library-quantile strategies, given the library's row-count contract).
The bound ordering `lower[i] ≤ point[i] ≤ upper[i]` holds
* unconditionally for Baseline-Smoothing,
* for Recurrent-Sequence only in the half `point ≤ upper`; the
  zero-clamped lower bound is only below the point forecast at steps
  whose point forecast is nonnegative (the counterexample shows a fitted
  instance with a negative autoregressive prediction where
  `lower[i] > point[i]`),
* for Trend-Seasonality and Foundation-Zero-Shot whenever the external
  model's own quantile columns are ordered (the code applies no
  clipping), and
* for the hybrid, whose output equals its internal Trend-Seasonality
  forecast except for the residual-corrected first point (which the code
  does not re-clip into the interval). -/
theorem forecast_lengths_and_bound_ordering :
    (∀ (ppf : ℝ → ℝ) (span : ℕ) (conf : ℝ) (s : List (ℤ × ℝ)) (H : ℕ)
      (r : ForecastResult),
      simpleForecast ppf (simpleFitSt span conf s) H = Except.ok r →
      (r.dates.length = H ∧ r.pointForecast.length = H ∧
        r.lowerBound.length = H ∧ r.upperBound.length = H) ∧
      (0 ≤ ppf ((1 + conf) / 2) → ∀ i, i < H →
        r.lowerBound.getD i 0 ≤ r.pointForecast.getD i 0 ∧
        r.pointForecast.getD i 0 ≤ r.upperBound.getD i 0)) ∧
    (∀ (ppf : ℝ → ℝ) (st : LstmState) (net : List ℝ → ℝ) (H : ℕ)
      (r : ForecastResult),
      st.isFitted = true → st.model = some net → 0 ≤ st.valResidualStd →
      lstmForecast ppf st H = Except.ok r →
      (r.dates.length = H ∧ r.pointForecast.length = H ∧
        r.lowerBound.length = H ∧ r.upperBound.length = H) ∧
      (0 ≤ ppf ((1 + st.confidenceLevel) / 2) → ∀ i, i < H →
        (r.pointForecast.getD i 0 ≤ r.upperBound.getD i 0) ∧
        (0 ≤ r.pointForecast.getD i 0 →
          r.lowerBound.getD i 0 ≤ r.pointForecast.getD i 0))) ∧
    (∀ (st : ProphetState) (m : ProphetModel) (H : ℕ) (r : ForecastResult),
      st.isFitted = true → st.model = some m →
      prophetForecast st H = Except.ok r →
      ((H ≤ (m.predict H).ds.length → r.dates.length = H) ∧
        (H ≤ (m.predict H).yhat.length → r.pointForecast.length = H) ∧
        (H ≤ (m.predict H).yhatLower.length → r.lowerBound.length = H) ∧
        (H ≤ (m.predict H).yhatUpper.length → r.upperBound.length = H)) ∧
      ((∀ i, i < H →
          (tailN H (m.predict H).yhatLower).getD i 0 ≤
            (tailN H (m.predict H).yhat).getD i 0 ∧
          (tailN H (m.predict H).yhat).getD i 0 ≤
            (tailN H (m.predict H).yhatUpper).getD i 0) →
        ∀ i, i < H →
          r.lowerBound.getD i 0 ≤ r.pointForecast.getD i 0 ∧
          r.pointForecast.getD i 0 ≤ r.upperBound.getD i 0)) ∧
    (∀ (art : Option XgbArtifact) (st : PXgbState) (pst : ProphetState)
      (s : List (ℤ × ℝ)) (H : ℕ) (r pr : ForecastResult),
      st.isFitted = true → st.prophet = some pst → st.prices = some s →
      prophetForecast pst H = Except.ok pr →
      pxgbForecast art st H = Except.ok r →
      r.dates = pr.dates ∧ r.lowerBound = pr.lowerBound ∧
      r.upperBound = pr.upperBound ∧
      r.pointForecast.length = pr.pointForecast.length ∧
      r.pointForecast.tail = pr.pointForecast.tail ∧
      (art = none → r.pointForecast = pr.pointForecast)) ∧
    (∀ (pipe : ChronosPipeline) (st : ChronosState) (s : List (ℤ × ℝ))
      (H : ℕ) (r : ForecastResult),
      st.isFitted = true → st.prices = some s →
      chronosForecast pipe st H = Except.ok r →
      ((pipe.predictDf s H).rows.length = H →
        r.dates.length = H ∧ r.pointForecast.length = H ∧
        r.lowerBound.length = H ∧ r.upperBound.length = H) ∧
      ((∀ row ∈ (pipe.predictDf s H).rows,
          row.2.2.1 ≤ row.2.1 ∧ row.2.1 ≤ row.2.2.2) →
        ∀ i, r.lowerBound.getD i 0 ≤ r.pointForecast.getD i 0 ∧
          r.pointForecast.getD i 0 ≤ r.upperBound.getD i 0)) :=
  ⟨fun ppf span conf s H r hok =>
      simple_forecast_shape ppf span conf s H r hok,
    fun ppf st net H r hfit hmod hσ hok =>
      lstm_forecast_shape ppf st net H r hfit hmod hσ hok,
    fun st m H r hfit hmod hok =>
      prophet_forecast_shape st m H r hfit hmod hok,
    fun art st pst s H r pr hfit hpro hpr hokp hok =>
      pxgb_forecast_frame art st pst s H r pr hfit hpro hpr hokp hok,
    fun pipe st s H r hfit hp hok =>
      chronos_forecast_shape pipe st s H r hfit hp hok⟩

/-- C1 witness: the theorem's five components applied to concrete fitted
instances of each strategy, with every hypothesis discharged. -/
theorem forecast_lengths_and_bound_ordering_witness :
    (simpleResW.pointForecast.length = 4 ∧
      simpleResW.lowerBound.getD 0 0 ≤ simpleResW.pointForecast.getD 0 0) ∧
    (lstmResW.upperBound.length = 4 ∧
      lstmResW.pointForecast.getD 0 0 ≤ lstmResW.upperBound.getD 0 0) ∧
    (prophetResCE.pointForecast.length = 2 ∧
      prophetResCE.lowerBound.getD 0 0 ≤ prophetResCE.pointForecast.getD 0 0) ∧
    (pxgbResW.dates = prophetResCE.dates ∧
      pxgbResW.pointForecast.tail = prophetResCE.pointForecast.tail) ∧
    (chronosResW.pointForecast.length = 3 ∧
      chronosResW.lowerBound.getD 1 0 ≤ chronosResW.pointForecast.getD 1 0) := by
  have htailLo : tailN 2 (prophetPredCE 2).yhatLower = [8, 8] := rfl
  have htailMid : tailN 2 (prophetPredCE 2).yhat = [10, 10] := rfl
  have htailHi : tailN 2 (prophetPredCE 2).yhatUpper = [12, 12] := rfl
  have hordC : ∀ i, i < 2 →
      (tailN 2 (prophetModelCE.predict 2).yhatLower).getD i 0 ≤
        (tailN 2 (prophetModelCE.predict 2).yhat).getD i 0 ∧
      (tailN 2 (prophetModelCE.predict 2).yhat).getD i 0 ≤
        (tailN 2 (prophetModelCE.predict 2).yhatUpper).getD i 0 := by
    intro i hi
    show (tailN 2 (prophetPredCE 2).yhatLower).getD i 0 ≤
        (tailN 2 (prophetPredCE 2).yhat).getD i 0 ∧
      (tailN 2 (prophetPredCE 2).yhat).getD i 0 ≤
        (tailN 2 (prophetPredCE 2).yhatUpper).getD i 0
    rw [htailLo, htailMid, htailHi]
    interval_cases i <;>
      simp [List.getD_cons_zero, List.getD_cons_succ] <;> norm_num
  have hordE : ∀ row ∈ (chronosPipeCE.predictDf [(0, 1)] 3).rows,
      row.2.2.1 ≤ row.2.1 ∧ row.2.1 ≤ row.2.2.2 := by
    intro row hrow
    have : row ∈ (List.range 3).map
        (fun (i : ℕ) => ((i : ℤ), (5 : ℝ), (4 : ℝ), (6 : ℝ))) := hrow
    rw [List.mem_map] at this
    obtain ⟨j, _, hj⟩ := this
    rw [← hj]
    norm_num
  have hA := forecast_lengths_and_bound_ordering.1 ppfCE 20 (1 / 2) seriesW 4
    simpleResW rfl
  have hB := forecast_lengths_and_bound_ordering.2.1 ppfCE lstmStW
    (fun _ => 0) 4 lstmResW rfl rfl (le_refl 0) rfl
  have hC := forecast_lengths_and_bound_ordering.2.2.1 prophetStCE
    prophetModelCE 2 prophetResCE rfl rfl rfl
  have hD := forecast_lengths_and_bound_ordering.2.2.2.1 (some artCE)
    pxgbStCE prophetStCE [(0, 10), (7, 11), (14, 12)] 2 pxgbResW
    prophetResCE rfl rfl rfl rfl rfl
  have hE := forecast_lengths_and_bound_ordering.2.2.2.2 chronosPipeCE
    chronosStCE [(0, 1)] 3 chronosResW rfl rfl rfl
  refine ⟨⟨hA.1.2.1, ?_⟩, ⟨hB.1.2.2.2, ?_⟩, ⟨?_, ?_⟩, ⟨hD.1, hD.2.2.2.2.1⟩,
    ⟨?_, ?_⟩⟩
  · exact (hA.2 (by norm_num [ppfCE]) 0 (by norm_num)).1
  · exact (hB.2 (by norm_num [ppfCE]) 0 (by norm_num)).1
  · exact hC.1.2.1 (by show 2 ≤ (List.replicate (3 + 2) (10 : ℝ)).length; simp)
  · exact (hC.2 hordC 0 (by norm_num)).1
  · refine (hE.1 ?_).2.1
    show ((List.range 3).map
      (fun (i : ℕ) => ((i : ℤ), (5 : ℝ), (4 : ℝ), (6 : ℝ)))).length = 3
    simp
  · exact (hE.2 hordE 1).1

/-- C9 witness: the theorem applied to an empty series (shortfall, weekly
threshold 1 + 52 = 53) and to the 53-point series `wfSeriesW` (no
shortfall). -/
theorem walk_forward_shortfall_iff_witness :
    walkForwardBacktest extW ppfCE [] Cadence.wk 1 20 (1 / 2) none none =
      { metrics := []
        boundsHorizonWeeks := 1
        bounds := []
        shortfallError := some (53, 0)
        lastNWeeks := none } ∧
    (walkForwardBacktest extW ppfCE wfSeriesW Cadence.wk 1 20 (1 / 2) none
      none).shortfallError = none :=
  ⟨(walk_forward_shortfall_iff extW ppfCE [] Cadence.wk 1 20 (1 / 2) none
      none).2.1 (by norm_num [minTrain]),
    ((walk_forward_shortfall_iff extW ppfCE wfSeriesW Cadence.wk 1 20 (1 / 2)
      none none).2.2 (by simp [wfSeriesW, minTrain])).1⟩

end Capstone
